import Mathlib

/-!
Verification of the colour-cxf round-tripping core.

The data-model declarations embedded here are translated from
`src/colour_cxf/__init__.py`.  The decode / validate / encode engine exercised
by the repository's tests (`read_cxf`, `write_cxf`, module `colour_cxf.cxf3`)
is not part of the source tree, so it is modelled from the specification
(sections 3, 4, 7 and 8 of `spec.md`): documents are represented as abstract
well-formed markup trees (byte-level well-formedness checking is abstracted
away), numeric leaves carry exact rationals (the spec mandates a numerically
lossless serialization of floating-point values), and attributes appear in
the canonical schema order the encoder emits.
-/

namespace ColourCxf

/-- Leaf value of the serialized form: a text string, a single number, or a
whitespace-delimited sequence of numbers (spectral sample lists).  Numbers are
exact rationals, modelling the spec's requirement of a lossless
round-trippable numeric representation. -/
inductive AVal where
  | str (s : String)
  | num (q : ℚ)
  | nums (qs : List ℚ)
deriving DecidableEq

/-- Abstract well-formed markup tree: an element with a tag, an ordered
attribute list and ordered children, or a leaf content node. -/
inductive Xml where
  | elem (tag : String) (attrs : List (String × AVal)) (children : List Xml)
  | content (v : AVal)

/-- Error taxonomy, modelled from the spec (section 7). -/
inductive CxfError where
  | malformedMarkup (msg : String)
  | schemaViolation (msg : String)
  | domainViolation (msg : String)
  | referenceIntegrity (ref : String)
  | duplicateKey (id : String)
deriving DecidableEq

instance {ε α : Type} [DecidableEq ε] [DecidableEq α] :
    DecidableEq (Except ε α) := fun x y =>
  match x, y with
  | .ok a, .ok b =>
    if h : a = b then isTrue (by rw [h])
    else isFalse (by intro hc; cases hc; exact h rfl)
  | .error e, .error f =>
    if h : e = f then isTrue (by rw [h])
    else isFalse (by intro hc; cases hc; exact h rfl)
  | .ok _, .error _ => isFalse (by intro hc; cases hc)
  | .error _, .ok _ => isFalse (by intro hc; cases hc)

/-- Tag of a markup node, `none` for content leaves. -/
def Xml.tagOf : Xml → Option String
  | .elem t _ _ => some t
  | .content _ => none

@[simp]
theorem ok_bind {α β : Type} (a : α) (f : α → Except CxfError β) :
    (Except.ok a >>= f) = f a := rfl

@[simp]
theorem error_bind {α β : Type} (e : CxfError) (f : α → Except CxfError β) :
    ((Except.error e : Except CxfError α) >>= f) = Except.error e := rfl

@[simp]
theorem pure_eq_ok {α : Type} (a : α) :
    (pure a : Except CxfError α) = Except.ok a := rfl

theorem exceptBind_ok {α β : Type} {e : Except CxfError α}
    {k : α → Except CxfError β} {b : β} (h : (e >>= k) = .ok b) :
    ∃ a, e = .ok a ∧ k a = .ok b := by
  cases e with
  | ok a => exact ⟨a, rfl, h⟩
  | error err => simp at h

/-- Sequential child parser for one optional element slot: consumes the head
child when its tag matches, leaving the rest untouched otherwise (schema order
is significant, per spec section 4.1). -/
def decOptChild {α : Type} (tag : String) (f : Xml → Except CxfError α) :
    List Xml → Except CxfError (Option α × List Xml)
  | [] => .ok (none, [])
  | x :: rest =>
    if x.tagOf = some tag then do
      let a ← f x
      .ok (some a, rest)
    else .ok (none, x :: rest)

/-- Sequential child parser for one required element slot. -/
def decReqChild {α : Type} (tag : String) (f : Xml → Except CxfError α) :
    List Xml → Except CxfError (α × List Xml)
  | [] => .error (.schemaViolation ("missing required element " ++ tag))
  | x :: rest =>
    if x.tagOf = some tag then do
      let a ← f x
      .ok (a, rest)
    else .error (.schemaViolation ("missing required element " ++ tag))

/-- After all slots are consumed, no child may remain: unknown or out-of-order
elements are a schema violation (spec section 4.1, rule 2). -/
def decDone : List Xml → Except CxfError Unit
  | [] => .ok ()
  | _ :: _ => .error (.schemaViolation "unexpected element")

/-- Emission of one optional element slot. -/
def encOptChild {α : Type} (f : α → Xml) : Option α → List Xml
  | none => []
  | some a => [f a]

/-- Error-propagating map over a list (used for ordered sequences). -/
def mapME {α β : Type} (f : α → Except CxfError β) :
    List α → Except CxfError (List β)
  | [] => .ok []
  | x :: xs => do
    let b ← f x
    let bs ← mapME f xs
    .ok (b :: bs)

/-- Every element of a markup-node list has its tag among `S`. -/
def TagsAmong (xs : List Xml) (S : List String) : Prop :=
  ∀ x ∈ xs, ∃ t ∈ S, x.tagOf = some t

theorem tagsAmong_nil (S : List String) : TagsAmong [] S := by
  intro x hx; cases hx

theorem tagsAmong_append {xs ys : List Xml} {S : List String}
    (hx : TagsAmong xs S) (hy : TagsAmong ys S) : TagsAmong (xs ++ ys) S := by
  intro x hmem
  rcases List.mem_append.mp hmem with h | h
  · exact hx x h
  · exact hy x h

theorem tagsAmong_encOpt {α : Type} {f : α → Xml} {t : String}
    {S : List String} (hf : ∀ a, (f a).tagOf = some t) (ht : t ∈ S)
    (o : Option α) : TagsAmong (encOptChild f o) S := by
  cases o with
  | none => exact tagsAmong_nil S
  | some a =>
    intro x hx
    simp only [encOptChild, List.mem_singleton] at hx
    exact ⟨t, ht, hx ▸ hf a⟩

theorem tagsAmong_map {α : Type} {f : α → Xml} {t : String}
    {S : List String} (hf : ∀ a, (f a).tagOf = some t) (ht : t ∈ S)
    (l : List α) : TagsAmong (l.map f) S := by
  intro x hx
  rcases List.mem_map.mp hx with ⟨a, _, rfl⟩
  exact ⟨t, ht, hf a⟩

theorem tagsAmong_mono {xs : List Xml} {S T : List String}
    (h : TagsAmong xs S) (hsub : ∀ t ∈ S, t ∈ T) : TagsAmong xs T := by
  intro x hx
  rcases h x hx with ⟨t, htS, htag⟩
  exact ⟨t, hsub t htS, htag⟩

/-- Skipping an optional slot: when every remaining child carries a tag other
than `tag`, the optional parser consumes nothing. -/
theorem decOptChild_skip {α : Type} {tag : String}
    {f : Xml → Except CxfError α} {xs : List Xml} {S : List String}
    (h : TagsAmong xs S) (hS : tag ∉ S) :
    decOptChild tag f xs = .ok (none, xs) := by
  cases xs with
  | nil => rfl
  | cons x rest =>
    rcases h x (List.mem_cons_self x rest) with ⟨t, htS, htag⟩
    have hne : x.tagOf ≠ some tag := by
      rw [htag]
      intro hcontra
      exact hS (Option.some.inj hcontra ▸ htS)
    simp [decOptChild, hne]

/-- Round-trip of one optional slot followed by remaining children whose tags
avoid `tag`. -/
theorem decOptChild_roundtrip {α : Type} {tag : String}
    {f : Xml → Except CxfError α} {g : α → Xml} {S : List String}
    (o : Option α) (rest : List Xml)
    (hf : ∀ a, o = some a → f (g a) = .ok a)
    (ht : ∀ a, (g a).tagOf = some tag)
    (hrest : TagsAmong rest S) (hS : tag ∉ S) :
    decOptChild tag f (encOptChild g o ++ rest) = .ok (o, rest) := by
  cases o with
  | none =>
    simpa [encOptChild] using decOptChild_skip hrest hS
  | some a =>
    simp [encOptChild, decOptChild, ht a, hf a rfl]

/-- Round-trip of one required slot. -/
theorem decReqChild_roundtrip {α : Type} {tag : String}
    {f : Xml → Except CxfError α} {g : α → Xml}
    (a : α) (rest : List Xml)
    (hf : f (g a) = .ok a) (ht : (g a).tagOf = some tag) :
    decReqChild tag f (g a :: rest) = .ok (a, rest) := by
  simp [decReqChild, ht, hf]

/-- Mapping the decoder over encoded elements recovers the list. -/
theorem mapME_map {α β : Type} {f : β → Except CxfError α} {g : α → β}
    (l : List α) (h : ∀ a ∈ l, f (g a) = .ok a) :
    mapME f (l.map g) = .ok l := by
  induction l with
  | nil => rfl
  | cons a as ih =>
    have ha : f (g a) = .ok a := h a (List.mem_cons_self a as)
    have has : mapME f (as.map g) = .ok as := by
      exact ih (fun b hb => h b (List.mem_cons_of_mem a hb))
    simp [mapME, ha, has]

/-- Any element of a successfully mapped list satisfies whatever the
element-decoder guarantees. -/
theorem mapME_ok_forall {α β : Type} {f : α → Except CxfError β}
    {P : β → Prop} (hf : ∀ x b, f x = .ok b → P b) :
    ∀ {xs : List α} {l : List β}, mapME f xs = .ok l → ∀ b ∈ l, P b := by
  intro xs
  induction xs with
  | nil =>
    intro l h b hb
    have hl : ([] : List β) = l := by injection h
    rw [← hl] at hb
    cases hb
  | cons x xs ih =>
    intro l h b hb
    simp only [mapME] at h
    rcases exceptBind_ok h with ⟨b0, hb0, h⟩
    rcases exceptBind_ok h with ⟨bs, hbs, h⟩
    have hl : b0 :: bs = l := by injection h
    rw [← hl] at hb
    rcases List.mem_cons.mp hb with rfl | hmem
    · exact hf x b hb0
    · exact ih hbs b hmem

/-! ## Enumerated domains

`TargetType`, `SubstrateType`, `ProfileDirection` and `FinishType` are
translated from `src/colour_cxf/__init__.py`.  `FinishType` is embedded with
the member values exactly as the source writes them (note the value of
`COATED`).  `FinishTypeSpec` is the finish-type domain as the spec states it
(finishType among Coated, Uncoated, Matte, Polished, Glossy, Satin, Other);
the round-tripping engine below uses the spec domain. -/

/-- Embeds `TargetType` (src lines 99-105). -/
inductive TargetType where
  | IT8_7_1
  | IT8_7_2
  | IT8_7_3
  | IT8_7_4
  | ECI2002
  | OTHER
deriving DecidableEq

/-- String value of each `TargetType` member, as in the source. -/
def TargetType.value : TargetType → String
  | .IT8_7_1 => "IT8.7/1"
  | .IT8_7_2 => "IT8.7/2"
  | .IT8_7_3 => "IT8.7/3"
  | .IT8_7_4 => "IT8.7/4"
  | .ECI2002 => "ECI2002"
  | .OTHER => "Other"

/-- Lookup by value, as a `str`-valued Python `Enum` resolves its members. -/
def TargetType.ofString (s : String) : Option TargetType :=
  if s = "IT8.7/1" then some .IT8_7_1
  else if s = "IT8.7/2" then some .IT8_7_2
  else if s = "IT8.7/3" then some .IT8_7_3
  else if s = "IT8.7/4" then some .IT8_7_4
  else if s = "ECI2002" then some .ECI2002
  else if s = "Other" then some .OTHER
  else none

/-- Embeds `FinishType` (src lines 107-114) with the member values written in
the source: `COATED = "Cated"`, `UNCOATED = "Uncoated"`, `MATTE = "Matte"`,
`POLISHED = "Polished"`, `GLOSSY = "Glossy"`, `SATIN = "Satin"`,
`OTHER = "Other"`. -/
inductive FinishType where
  | COATED
  | UNCOATED
  | MATTE
  | POLISHED
  | GLOSSY
  | SATIN
  | OTHER
deriving DecidableEq

/-- String value of each `FinishType` member, exactly as in the source. -/
def FinishType.value : FinishType → String
  | .COATED => "Cated"
  | .UNCOATED => "Uncoated"
  | .MATTE => "Matte"
  | .POLISHED => "Polished"
  | .GLOSSY => "Glossy"
  | .SATIN => "Satin"
  | .OTHER => "Other"

/-- Lookup by value: a string is accepted exactly when it equals the value of
some member, as a `str`-valued Python `Enum` behaves during validation. -/
def FinishType.ofString (s : String) : Option FinishType :=
  if s = "Cated" then some .COATED
  else if s = "Uncoated" then some .UNCOATED
  else if s = "Matte" then some .MATTE
  else if s = "Polished" then some .POLISHED
  else if s = "Glossy" then some .GLOSSY
  else if s = "Satin" then some .SATIN
  else if s = "Other" then some .OTHER
  else none

/-- Modelled from the spec: the finish-type closed domain of section 3,
finishType among Coated, Uncoated, Matte, Polished, Glossy, Satin, Other. -/
inductive FinishTypeSpec where
  | coated
  | uncoated
  | matte
  | polished
  | glossy
  | satin
  | other
deriving DecidableEq

/-- String form of each spec finish-type member. -/
def FinishTypeSpec.value : FinishTypeSpec → String
  | .coated => "Coated"
  | .uncoated => "Uncoated"
  | .matte => "Matte"
  | .polished => "Polished"
  | .glossy => "Glossy"
  | .satin => "Satin"
  | .other => "Other"

/-- Lookup by value over the spec finish-type domain. -/
def FinishTypeSpec.ofString (s : String) : Option FinishTypeSpec :=
  if s = "Coated" then some .coated
  else if s = "Uncoated" then some .uncoated
  else if s = "Matte" then some .matte
  else if s = "Polished" then some .polished
  else if s = "Glossy" then some .glossy
  else if s = "Satin" then some .satin
  else if s = "Other" then some .other
  else none

/-- Embeds `SubstrateType` (src lines 129-140). -/
inductive SubstrateType where
  | FILM
  | LEATHER
  | METAL
  | PAINT
  | PAPER
  | PLASTIC
  | TEXTILE
  | TILE
  | VINYL
  | WOOD
  | OTHER
deriving DecidableEq

/-- String value of each `SubstrateType` member, as in the source. -/
def SubstrateType.value : SubstrateType → String
  | .FILM => "Film"
  | .LEATHER => "Leather"
  | .METAL => "Metal"
  | .PAINT => "Paint"
  | .PAPER => "Paper"
  | .PLASTIC => "Plastic"
  | .TEXTILE => "Textile"
  | .TILE => "Tile"
  | .VINYL => "Vinyl"
  | .WOOD => "Wood"
  | .OTHER => "Other"

/-- Lookup by value over the substrate domain. -/
def SubstrateType.ofString (s : String) : Option SubstrateType :=
  if s = "Film" then some .FILM
  else if s = "Leather" then some .LEATHER
  else if s = "Metal" then some .METAL
  else if s = "Paint" then some .PAINT
  else if s = "Paper" then some .PAPER
  else if s = "Plastic" then some .PLASTIC
  else if s = "Textile" then some .TEXTILE
  else if s = "Tile" then some .TILE
  else if s = "Vinyl" then some .VINYL
  else if s = "Wood" then some .WOOD
  else if s = "Other" then some .OTHER
  else none

/-- Embeds `ProfileDirection` (src lines 258-261). -/
inductive ProfileDirection where
  | input
  | output
  | both
deriving DecidableEq

/-- String value of each `ProfileDirection` member, as in the source. -/
def ProfileDirection.value : ProfileDirection → String
  | .input => "Input"
  | .output => "Output"
  | .both => "Both"

/-- Lookup by value over the profile-direction domain. -/
def ProfileDirection.ofString (s : String) : Option ProfileDirection :=
  if s = "Input" then some .input
  else if s = "Output" then some .output
  else if s = "Both" then some .both
  else none

/-! ## The typed document graph

Modelled from the spec (section 3) with the field shapes of the classes in
`src/colour_cxf/__init__.py` where the two agree.  Identifiers are simple
strings; dates are carried as their ISO-8601 text (no claim depends on date
arithmetic); all numeric fields are exact rationals. -/

/-- Name/value text pair (`Tag`, src lines 28-30). -/
structure Tag where
  name : String
  value : String
deriving DecidableEq

/-- Modelled from the spec: `FileInformation` with optional creator,
creation date, description, comment and an ordered `Tag` sequence. -/
structure FileInformation where
  creator : Option String
  creation_date : Option String
  description : Option String
  comment : Option String
  tags : List Tag
deriving DecidableEq

/-- CIELab colour value (`ColorCIELab`, src lines 48-53). -/
structure ColorCIELab where
  l : ℚ
  a : ℚ
  b : ℚ
  name : Option String
  color_specification : Option String
deriving DecidableEq

/-- sRGB colour value (`ColorSRGB`, src lines 41-46); the schema bounds every
channel to the closed interval from 0 to 255. -/
structure ColorSRGB where
  r : ℚ
  g : ℚ
  b : ℚ
  name : Option String
  color_specification : Option String
deriving DecidableEq

/-- Spectral payload shared by `ReflectanceSpectrum` and
`TransmittanceSpectrum` (src lines 55-68): an ordered sample sequence, the
start wavelength, and optional name, measure date and colour-specification
reference. -/
structure SpectrumData where
  value : List ℚ
  start_wl : ℚ
  name : Option String
  measure_date : Option String
  color_specification : Option String
deriving DecidableEq

/-- Modelled from the spec: the closed colour-value variant set of a
`ColorValues` sequence — a tagged union of `ColorCIELab`, `ColorSRGB`,
`ReflectanceSpectrum` and `TransmittanceSpectrum`, dispatched by tag. -/
inductive ColorValue where
  | cieLab (c : ColorCIELab)
  | srgb (c : ColorSRGB)
  | reflectance (s : SpectrumData)
  | transmittance (s : SpectrumData)
deriving DecidableEq

/-- Physical value with an optional unit (src `Quantity`, `Height`, `Width`,
`Length`, `Thickness`, lines 142-160). -/
structure ValueUnit where
  value : ℚ
  unit : Option String
deriving DecidableEq

/-- Physical value with an optional method (src `Gloss`, `Opacity`,
lines 162-168). -/
structure ValueMethod where
  value : ℚ
  method : Option String
deriving DecidableEq

/-- Custom attribute extension (src `CustomAttributeString`,
`CustomAttributeValue`, lines 170-177). -/
structure CustomAttr where
  label : Option String
  method : Option String
deriving DecidableEq

/-- Physical attributes (src lines 184-197; the engine's finish-type field
uses the spec domain `FinishTypeSpec`). -/
structure PhysicalAttributes where
  target_type : Option TargetType
  finish_type : Option FinishTypeSpec
  substrate_type : Option SubstrateType
  quantity : Option ValueUnit
  height : Option ValueUnit
  width : Option ValueUnit
  length : Option ValueUnit
  thickness : Option ValueUnit
  gloss : Option ValueMethod
  opacity : Option ValueMethod
  custom_attribute_string : Option CustomAttr
  custom_attribute_value : Option CustomAttr
  image : Option String
deriving DecidableEq

/-- Measured object (src `Object`, lines 200-211).  The colour-difference
payload is carried as a unit marker (present or absent empty element, src
`ColorDifferenceValues` is an empty class). -/
structure Object where
  object_type : String
  name : String
  id : String
  guid : Option String
  creation_date : String
  comment : Option String
  color_values : Option (List ColorValue)
  color_difference_values : Option Unit
  tag_collection : Option (List Tag)
  physical_attributes : Option PhysicalAttributes
deriving DecidableEq

/-- Tristimulus specification (src lines 217-221). -/
structure TristimulusSpec where
  illuminant : Option String
  custom_illuminant : Option String
  observer : Option String
  method : Option String
deriving DecidableEq

/-- Modelled from the spec: the measurement geometry choice, a closed variant
set of sphere geometry versus directional geometry. -/
inductive Geometry where
  | sphere (s : String)
  | directional (s : String)
deriving DecidableEq

/-- Measurement specification (src lines 223-229; the geometry choice is the
closed variant set of the spec). -/
structure MeasurementSpec where
  measurement_type : String
  geometry_choice : Geometry
  wavelength_range : Option String
  luminance_units_type : Option String
  calibration_standard : Option String
  device : Option String
deriving DecidableEq

/-- Colour specification (src lines 247-252).  The spec makes `id` a required
string key ("all identifiers are simple strings"), which the engine follows. -/
structure ColorSpecification where
  id : String
  tristimulus_spec : Option TristimulusSpec
  measurement_spec : Option MeasurementSpec
  physical_attributes : Option PhysicalAttributes
deriving DecidableEq

/-- Modelled from the spec: the mutually exclusive profile choice between a
profile file path and a profile URI. -/
inductive ProfileChoice where
  | file (path : String)
  | uri (u : String)
deriving DecidableEq

/-- Profile parameter (src lines 268-270). -/
structure ProfileParameter where
  name : String
  value_choice : String
deriving DecidableEq

/-- Profile (src lines 272-278; `id` is a string key per the spec). -/
structure Profile where
  id : String
  direction : ProfileDirection
  profile_choice : Option ProfileChoice
  parameters : Option (List ProfileParameter)
  created : Option String
deriving DecidableEq

/-- Resources (src lines 285-288): three optional collections; an absent
collection and a present-but-empty collection are distinct states. -/
structure Resources where
  object_collection : Option (List Object)
  color_specification_collection : Option (List ColorSpecification)
  profile_collection : Option (List Profile)
deriving DecidableEq

/-- Root document (src `CxF`, lines 290-293): optional file information and
optional resources. -/
structure CxF where
  file_information : Option FileInformation
  resources : Option Resources
deriving DecidableEq

/-! ## Attribute and leaf combinators -/

/-- Sequential parser for one optional string attribute slot. -/
def decOptAttrS (name : String) :
    List (String × AVal) → Except CxfError (Option String × List (String × AVal))
  | (n, AVal.str s) :: rest =>
    if n = name then .ok (some s, rest) else .ok (none, (n, AVal.str s) :: rest)
  | attrs => .ok (none, attrs)

/-- Sequential parser for one required string attribute slot. -/
def decReqAttrS (name : String) :
    List (String × AVal) → Except CxfError (String × List (String × AVal))
  | (n, AVal.str s) :: rest =>
    if n = name then .ok (s, rest)
    else .error (.schemaViolation ("missing required " ++ name))
  | _ => .error (.schemaViolation ("missing required " ++ name))

/-- Sequential parser for one required numeric attribute slot. -/
def decReqAttrQ (name : String) :
    List (String × AVal) → Except CxfError (ℚ × List (String × AVal))
  | (n, AVal.num q) :: rest =>
    if n = name then .ok (q, rest)
    else .error (.schemaViolation ("missing required " ++ name))
  | _ => .error (.schemaViolation ("missing required " ++ name))

/-- No attribute may remain once every slot is consumed. -/
def decAttrsDone : List (String × AVal) → Except CxfError Unit
  | [] => .ok ()
  | _ :: _ => .error (.schemaViolation "unexpected attribute")

/-- Emission of one optional string attribute slot. -/
def encOptAttrS (name : String) : Option String → List (String × AVal)
  | none => []
  | some s => [(name, AVal.str s)]

/-- Every attribute of a list has its key among `S`. -/
def KeysAmong (xs : List (String × AVal)) (S : List String) : Prop :=
  ∀ p ∈ xs, p.1 ∈ S

theorem keysAmong_nil (S : List String) : KeysAmong [] S := by
  intro p hp; cases hp

theorem keysAmong_encOpt {name : String} {S : List String} (h : name ∈ S)
    (o : Option String) : KeysAmong (encOptAttrS name o) S := by
  cases o with
  | none => exact keysAmong_nil S
  | some s =>
    intro p hp
    simp only [encOptAttrS, List.mem_singleton] at hp
    rw [hp]
    exact h

/-- Skipping an optional string attribute slot. -/
theorem decOptAttrS_skip {name : String} {xs : List (String × AVal)}
    {S : List String} (h : KeysAmong xs S) (hS : name ∉ S) :
    decOptAttrS name xs = .ok (none, xs) := by
  match xs with
  | [] => rfl
  | (n, AVal.str s) :: rest =>
    have hne : n ≠ name := by
      intro hcontra
      exact hS (hcontra ▸ h (n, AVal.str s) (List.mem_cons_self _ _))
    simp [decOptAttrS, hne]
  | (n, AVal.num q) :: rest => rfl
  | (n, AVal.nums qs) :: rest => rfl

/-- Round-trip of one optional string attribute slot. -/
theorem decOptAttrS_roundtrip {name : String} {S : List String}
    (o : Option String) (rest : List (String × AVal))
    (hrest : KeysAmong rest S) (hS : name ∉ S) :
    decOptAttrS name (encOptAttrS name o ++ rest) = .ok (o, rest) := by
  cases o with
  | none => simpa [encOptAttrS] using decOptAttrS_skip hrest hS
  | some s => simp [encOptAttrS, decOptAttrS]

/-- Round-trip of one required string attribute slot. -/
theorem decReqAttrS_roundtrip (name s : String) (rest : List (String × AVal)) :
    decReqAttrS name ((name, AVal.str s) :: rest) = .ok (s, rest) := by
  simp [decReqAttrS]

/-- Round-trip of one required numeric attribute slot. -/
theorem decReqAttrQ_roundtrip (name : String) (q : ℚ)
    (rest : List (String × AVal)) :
    decReqAttrQ name ((name, AVal.num q) :: rest) = .ok (q, rest) := by
  simp [decReqAttrQ]

/-- Text-content element: encoder. -/
def encStrChild (tag : String) (s : String) : Xml :=
  .elem tag [] [.content (.str s)]

/-- Numeric-content element: encoder. -/
def encNumChild (tag : String) (q : ℚ) : Xml :=
  .elem tag [] [.content (.num q)]

/-- Sample-sequence element: encoder (the encoder re-joins spectral samples
into one whitespace-delimited text, spec section 4.3). -/
def encNumsChild (tag : String) (qs : List ℚ) : Xml :=
  .elem tag [] [.content (.nums qs)]

/-- Text-content element: decoder (no attributes, exactly one text leaf). -/
def decStrChild : Xml → Except CxfError String
  | .elem _ [] [.content (.str s)] => .ok s
  | _ => .error (.schemaViolation "expected a text element")

/-- Numeric-content element: decoder. -/
def decNumChild : Xml → Except CxfError ℚ
  | .elem _ [] [.content (.num q)] => .ok q
  | _ => .error (.schemaViolation "expected a numeric element")

/-- Sample-sequence element: decoder for a whitespace-delimited numeric list. -/
def decNumsChild : Xml → Except CxfError (List ℚ)
  | .elem _ [] [.content (.nums qs)] => .ok qs
  | _ => .error (.schemaViolation "expected a sample sequence element")

/-- Empty marker element: decoder. -/
def decUnitChild : Xml → Except CxfError Unit
  | .elem _ [] [] => .ok ()
  | _ => .error (.schemaViolation "expected an empty element")

/-- Enumerated-domain element: the text content must belong to the closed
domain realized by `parse`; anything else is a domain violation, never a
silent default (spec section 3, invariant 4). -/
def decEnumChild {α : Type} (parse : String → Option α) (emsg : String)
    (x : Xml) : Except CxfError α := do
  let s ← decStrChild x
  match parse s with
  | some a => .ok a
  | none => .error (.domainViolation emsg)

@[simp]
theorem decStrChild_enc (tag s : String) :
    decStrChild (encStrChild tag s) = .ok s := rfl

@[simp]
theorem decNumChild_enc (tag : String) (q : ℚ) :
    decNumChild (encNumChild tag q) = .ok q := rfl

@[simp]
theorem encStrChild_tagOf (tag s : String) :
    (encStrChild tag s).tagOf = some tag := rfl

@[simp]
theorem encNumChild_tagOf (tag : String) (q : ℚ) :
    (encNumChild tag q).tagOf = some tag := rfl

theorem targetType_value_roundtrip (t : TargetType) :
    TargetType.ofString t.value = some t := by
  cases t <;> rfl

theorem finishTypeSpec_value_roundtrip (t : FinishTypeSpec) :
    FinishTypeSpec.ofString t.value = some t := by
  cases t <;> rfl

theorem substrateType_value_roundtrip (t : SubstrateType) :
    SubstrateType.ofString t.value = some t := by
  cases t <;> rfl

theorem profileDirection_value_roundtrip (t : ProfileDirection) :
    ProfileDirection.ofString t.value = some t := by
  cases t <;> rfl

/-! ## Encoder

Modelled from the spec (section 4.3): elements are emitted in schema order,
absent optionals are omitted, a present-but-empty collection is emitted as an
empty container element, the namespace is declared on the root. -/

def encodeTag (t : Tag) : Xml :=
  .elem "Tag" [("Name", .str t.name), ("Value", .str t.value)] []

def encodeFileInformation (fi : FileInformation) : Xml :=
  .elem "FileInformation" []
    (encOptChild (encStrChild "Creator") fi.creator ++
     encOptChild (encStrChild "CreationDate") fi.creation_date ++
     encOptChild (encStrChild "Description") fi.description ++
     encOptChild (encStrChild "Comment") fi.comment ++
     fi.tags.map encodeTag)

def encodeCIELab (c : ColorCIELab) : Xml :=
  .elem "ColorCIELab"
    (encOptAttrS "Name" c.name ++
     encOptAttrS "ColorSpecification" c.color_specification)
    [encNumChild "L" c.l, encNumChild "A" c.a, encNumChild "B" c.b]

def encodeSRGB (c : ColorSRGB) : Xml :=
  .elem "ColorSRGB"
    (encOptAttrS "Name" c.name ++
     encOptAttrS "ColorSpecification" c.color_specification)
    [encNumChild "R" c.r, encNumChild "G" c.g, encNumChild "B" c.b]

def encodeSpectrum (tag : String) (s : SpectrumData) : Xml :=
  .elem tag
    ([("StartWL", .num s.start_wl)] ++
     encOptAttrS "Name" s.name ++
     encOptAttrS "ColorSpecification" s.color_specification)
    ([encNumsChild "Value" s.value] ++
     encOptChild (encStrChild "MeasureDate") s.measure_date)

def encodeColorValue : ColorValue → Xml
  | .cieLab c => encodeCIELab c
  | .srgb c => encodeSRGB c
  | .reflectance s => encodeSpectrum "ReflectanceSpectrum" s
  | .transmittance s => encodeSpectrum "TransmittanceSpectrum" s

def encodeColorValues (l : List ColorValue) : Xml :=
  .elem "ColorValues" [] (l.map encodeColorValue)

def encodeTagCollection (l : List Tag) : Xml :=
  .elem "TagCollection" [] (l.map encodeTag)

def encodeValueUnit (tag : String) (v : ValueUnit) : Xml :=
  .elem tag (encOptAttrS "Unit" v.unit) [.content (.num v.value)]

def encodeValueMethod (tag : String) (v : ValueMethod) : Xml :=
  .elem tag (encOptAttrS "Method" v.method) [.content (.num v.value)]

def encodeCustomAttr (tag : String) (v : CustomAttr) : Xml :=
  .elem tag (encOptAttrS "Label" v.label ++ encOptAttrS "Method" v.method) []

def encodePhysicalAttributes (pa : PhysicalAttributes) : Xml :=
  .elem "PhysicalAttributes" []
    (encOptChild (fun v => encStrChild "TargetType" v.value) pa.target_type ++
     encOptChild (fun v => encStrChild "FinishType" v.value) pa.finish_type ++
     encOptChild (fun v => encStrChild "SubstrateType" v.value) pa.substrate_type ++
     encOptChild (encodeValueUnit "Quantity") pa.quantity ++
     encOptChild (encodeValueUnit "Height") pa.height ++
     encOptChild (encodeValueUnit "Width") pa.width ++
     encOptChild (encodeValueUnit "Length") pa.length ++
     encOptChild (encodeValueUnit "Thickness") pa.thickness ++
     encOptChild (encodeValueMethod "Gloss") pa.gloss ++
     encOptChild (encodeValueMethod "Opacity") pa.opacity ++
     encOptChild (encodeCustomAttr "CustomAttributeString") pa.custom_attribute_string ++
     encOptChild (encodeCustomAttr "CustomAttributeValue") pa.custom_attribute_value ++
     encOptChild (encStrChild "Image") pa.image)

def encodeObject (o : Object) : Xml :=
  .elem "Object"
    ([("ObjectType", .str o.object_type), ("Name", .str o.name),
      ("Id", .str o.id)] ++ encOptAttrS "GUID" o.guid)
    ([encStrChild "CreationDate" o.creation_date] ++
     encOptChild (encStrChild "Comment") o.comment ++
     encOptChild encodeColorValues o.color_values ++
     encOptChild (fun _ => Xml.elem "ColorDifferenceValues" [] [])
       o.color_difference_values ++
     encOptChild encodeTagCollection o.tag_collection ++
     encOptChild encodePhysicalAttributes o.physical_attributes)

def encodeTristimulusSpec (t : TristimulusSpec) : Xml :=
  .elem "TristimulusSpec" []
    (encOptChild (encStrChild "Illuminant") t.illuminant ++
     encOptChild (encStrChild "CustomIlluminant") t.custom_illuminant ++
     encOptChild (encStrChild "Observer") t.observer ++
     encOptChild (encStrChild "Method") t.method)

def encodeGeometry : Geometry → Xml
  | .sphere s => .elem "GeometryChoice" [] [encStrChild "SphereGeometry" s]
  | .directional s =>
    .elem "GeometryChoice" [] [encStrChild "DirectionalGeometry" s]

def encodeMeasurementSpec (m : MeasurementSpec) : Xml :=
  .elem "MeasurementSpec" []
    ([encStrChild "MeasurementType" m.measurement_type,
      encodeGeometry m.geometry_choice] ++
     encOptChild (encStrChild "WavelengthRange") m.wavelength_range ++
     encOptChild (encStrChild "LuminanceUnitsType") m.luminance_units_type ++
     encOptChild (encStrChild "CalibrationStandard") m.calibration_standard ++
     encOptChild (encStrChild "Device") m.device)

def encodeColorSpecification (c : ColorSpecification) : Xml :=
  .elem "ColorSpecification" [("Id", .str c.id)]
    (encOptChild encodeTristimulusSpec c.tristimulus_spec ++
     encOptChild encodeMeasurementSpec c.measurement_spec ++
     encOptChild encodePhysicalAttributes c.physical_attributes)

def encodeProfileChoice : ProfileChoice → Xml
  | .file s => .elem "ProfileChoice" [("ProfileFile", .str s)] []
  | .uri s => .elem "ProfileChoice" [("ProfileUri", .str s)] []

def encodeProfileParameter (p : ProfileParameter) : Xml :=
  .elem "ProfileParameter"
    [("Name", .str p.name), ("ValueChoice", .str p.value_choice)] []

def encodeParameters (l : List ProfileParameter) : Xml :=
  .elem "Parameters" [] (l.map encodeProfileParameter)

/-- Direction element of a profile, carrying the enum's string value. -/
def encodeDirection (d : ProfileDirection) : Xml :=
  encStrChild "Direction" d.value

def encodeProfile (p : Profile) : Xml :=
  .elem "Profile" [("Id", .str p.id)]
    ([encodeDirection p.direction] ++
     encOptChild encodeProfileChoice p.profile_choice ++
     encOptChild encodeParameters p.parameters ++
     encOptChild (encStrChild "Created") p.created)

def encodeObjectCollection (l : List Object) : Xml :=
  .elem "ObjectCollection" [] (l.map encodeObject)

def encodeColorSpecificationCollection (l : List ColorSpecification) : Xml :=
  .elem "ColorSpecificationCollection" [] (l.map encodeColorSpecification)

def encodeProfileCollection (l : List Profile) : Xml :=
  .elem "ProfileCollection" [] (l.map encodeProfile)

def encodeResources (r : Resources) : Xml :=
  .elem "Resources" []
    (encOptChild encodeObjectCollection r.object_collection ++
     encOptChild encodeColorSpecificationCollection
       r.color_specification_collection ++
     encOptChild encodeProfileCollection r.profile_collection)

/-- Fixed document namespace (spec section 6). -/
def cxfNamespace : String := "http://colorexchangeformat.com/CxF3-core"

/-- Modelled from the spec: `encode(Document) -> bytes` — the missing
`write_cxf`; emits the root `CxF` element with the declared namespace. -/
def encodeDoc (d : CxF) : Xml :=
  .elem "CxF" [("xmlns", .str cxfNamespace)]
    (encOptChild encodeFileInformation d.file_information ++
     encOptChild encodeResources d.resources)

/-! ## Decoder

Modelled from the spec (section 4.2): choice elements are resolved by tag
dispatch only, ordered sequences keep insertion order, required fields must be
present (empty required text is rejected), enumerated values outside their
domain and numbers outside their range fail with a domain violation, and the
assembled document is finally checked for duplicate object ids and
colour-specification reference integrity (sections 4.1 rule 5 and 7). -/

def decodeTag : Xml → Except CxfError Tag
  | .elem "Tag" attrs [] => do
    let (n, attrs) ← decReqAttrS "Name" attrs
    let (v, attrs) ← decReqAttrS "Value" attrs
    let _ ← decAttrsDone attrs
    .ok ⟨n, v⟩
  | _ => .error (.schemaViolation "Tag")

def decodeFileInformation : Xml → Except CxfError FileInformation
  | .elem "FileInformation" [] cs => do
    let (creator, cs) ← decOptChild "Creator" decStrChild cs
    let (cdate, cs) ← decOptChild "CreationDate" decStrChild cs
    let (descr, cs) ← decOptChild "Description" decStrChild cs
    let (comment, cs) ← decOptChild "Comment" decStrChild cs
    let tags ← mapME decodeTag cs
    .ok ⟨creator, cdate, descr, comment, tags⟩
  | _ => .error (.schemaViolation "FileInformation")

def decodeCIELab : Xml → Except CxfError ColorCIELab
  | .elem "ColorCIELab" attrs cs => do
    let (name, attrs) ← decOptAttrS "Name" attrs
    let (cref, attrs) ← decOptAttrS "ColorSpecification" attrs
    let _ ← decAttrsDone attrs
    let (lv, cs) ← decReqChild "L" decNumChild cs
    let (av, cs) ← decReqChild "A" decNumChild cs
    let (bv, cs) ← decReqChild "B" decNumChild cs
    let _ ← decDone cs
    .ok ⟨lv, av, bv, name, cref⟩
  | _ => .error (.schemaViolation "ColorCIELab")

def decodeSRGB : Xml → Except CxfError ColorSRGB
  | .elem "ColorSRGB" attrs cs => do
    let (name, attrs) ← decOptAttrS "Name" attrs
    let (cref, attrs) ← decOptAttrS "ColorSpecification" attrs
    let _ ← decAttrsDone attrs
    let (rv, cs) ← decReqChild "R" decNumChild cs
    let (gv, cs) ← decReqChild "G" decNumChild cs
    let (bv, cs) ← decReqChild "B" decNumChild cs
    let _ ← decDone cs
    if 0 ≤ rv ∧ rv ≤ 255 ∧ 0 ≤ gv ∧ gv ≤ 255 ∧ 0 ≤ bv ∧ bv ≤ 255 then
      .ok ⟨rv, gv, bv, name, cref⟩
    else .error (.domainViolation "sRGB channel out of range")
  | _ => .error (.schemaViolation "ColorSRGB")

/-- Spectral payload decoder, shared by the two spectrum variants (the
variant is already fixed by tag dispatch).  The start wavelength must be
positive (spec section 3, invariant 3; the physically-plausible window is
modelled as positivity, the spec names no concrete bounds). -/
def decodeSpectrumPayload : Xml → Except CxfError SpectrumData
  | .elem _ attrs cs => do
    let (swl, attrs) ← decReqAttrQ "StartWL" attrs
    let (name, attrs) ← decOptAttrS "Name" attrs
    let (cref, attrs) ← decOptAttrS "ColorSpecification" attrs
    let _ ← decAttrsDone attrs
    let (vals, cs) ← decReqChild "Value" decNumsChild cs
    let (mdate, cs) ← decOptChild "MeasureDate" decStrChild cs
    let _ ← decDone cs
    if 0 < swl then .ok ⟨vals, swl, name, mdate, cref⟩
    else .error (.domainViolation "StartWL must be positive")
  | .content _ => .error (.schemaViolation "spectrum")

/-- Colour-value variant dispatch by element tag (spec section 9: a closed
tagged union, never resolved by content shape). -/
def decodeColorValue (x : Xml) : Except CxfError ColorValue :=
  match x.tagOf with
  | some "ColorCIELab" => do
    let c ← decodeCIELab x
    .ok (.cieLab c)
  | some "ColorSRGB" => do
    let c ← decodeSRGB x
    .ok (.srgb c)
  | some "ReflectanceSpectrum" => do
    let s ← decodeSpectrumPayload x
    .ok (.reflectance s)
  | some "TransmittanceSpectrum" => do
    let s ← decodeSpectrumPayload x
    .ok (.transmittance s)
  | _ => .error (.schemaViolation "unknown colour-value variant")

def decodeColorValues : Xml → Except CxfError (List ColorValue)
  | .elem "ColorValues" [] cs => mapME decodeColorValue cs
  | _ => .error (.schemaViolation "ColorValues")

def decodeTagCollection : Xml → Except CxfError (List Tag)
  | .elem "TagCollection" [] cs => mapME decodeTag cs
  | _ => .error (.schemaViolation "TagCollection")

def decodeValueUnit : Xml → Except CxfError ValueUnit
  | .elem _ attrs [.content (.num q)] => do
    let (unit, attrs) ← decOptAttrS "Unit" attrs
    let _ ← decAttrsDone attrs
    .ok ⟨q, unit⟩
  | _ => .error (.schemaViolation "expected a value with unit")

def decodeValueMethod : Xml → Except CxfError ValueMethod
  | .elem _ attrs [.content (.num q)] => do
    let (method, attrs) ← decOptAttrS "Method" attrs
    let _ ← decAttrsDone attrs
    .ok ⟨q, method⟩
  | _ => .error (.schemaViolation "expected a value with method")

def decodeCustomAttr : Xml → Except CxfError CustomAttr
  | .elem _ attrs [] => do
    let (label, attrs) ← decOptAttrS "Label" attrs
    let (method, attrs) ← decOptAttrS "Method" attrs
    let _ ← decAttrsDone attrs
    .ok ⟨label, method⟩
  | _ => .error (.schemaViolation "expected a custom attribute")

def decodePhysicalAttributes : Xml → Except CxfError PhysicalAttributes
  | .elem "PhysicalAttributes" [] cs => do
    let (tt, cs) ← decOptChild "TargetType"
      (decEnumChild TargetType.ofString "TargetType") cs
    let (ft, cs) ← decOptChild "FinishType"
      (decEnumChild FinishTypeSpec.ofString "FinishType") cs
    let (st, cs) ← decOptChild "SubstrateType"
      (decEnumChild SubstrateType.ofString "SubstrateType") cs
    let (qu, cs) ← decOptChild "Quantity" decodeValueUnit cs
    let (he, cs) ← decOptChild "Height" decodeValueUnit cs
    let (wi, cs) ← decOptChild "Width" decodeValueUnit cs
    let (le, cs) ← decOptChild "Length" decodeValueUnit cs
    let (th, cs) ← decOptChild "Thickness" decodeValueUnit cs
    let (gl, cs) ← decOptChild "Gloss" decodeValueMethod cs
    let (op, cs) ← decOptChild "Opacity" decodeValueMethod cs
    let (cas, cs) ← decOptChild "CustomAttributeString" decodeCustomAttr cs
    let (cav, cs) ← decOptChild "CustomAttributeValue" decodeCustomAttr cs
    let (im, cs) ← decOptChild "Image" decStrChild cs
    let _ ← decDone cs
    .ok ⟨tt, ft, st, qu, he, wi, le, th, gl, op, cas, cav, im⟩
  | _ => .error (.schemaViolation "PhysicalAttributes")

def decodeObject : Xml → Except CxfError Object
  | .elem "Object" attrs cs => do
    let (otype, attrs) ← decReqAttrS "ObjectType" attrs
    let (name, attrs) ← decReqAttrS "Name" attrs
    let (oid, attrs) ← decReqAttrS "Id" attrs
    let (guid, attrs) ← decOptAttrS "GUID" attrs
    let _ ← decAttrsDone attrs
    let (cdate, cs) ← decReqChild "CreationDate" decStrChild cs
    let (comment, cs) ← decOptChild "Comment" decStrChild cs
    let (cvs, cs) ← decOptChild "ColorValues" decodeColorValues cs
    let (cdv, cs) ← decOptChild "ColorDifferenceValues" decUnitChild cs
    let (tc, cs) ← decOptChild "TagCollection" decodeTagCollection cs
    let (pa, cs) ← decOptChild "PhysicalAttributes" decodePhysicalAttributes cs
    let _ ← decDone cs
    if name = "" then .error (.schemaViolation "empty Object Name")
    else if oid = "" then .error (.schemaViolation "empty Object Id")
    else .ok ⟨otype, name, oid, guid, cdate, comment, cvs, cdv, tc, pa⟩
  | _ => .error (.schemaViolation "Object")

def decodeTristimulusSpec : Xml → Except CxfError TristimulusSpec
  | .elem "TristimulusSpec" [] cs => do
    let (il, cs) ← decOptChild "Illuminant" decStrChild cs
    let (ci, cs) ← decOptChild "CustomIlluminant" decStrChild cs
    let (ob, cs) ← decOptChild "Observer" decStrChild cs
    let (me, cs) ← decOptChild "Method" decStrChild cs
    let _ ← decDone cs
    .ok ⟨il, ci, ob, me⟩
  | _ => .error (.schemaViolation "TristimulusSpec")

def decodeGeometry : Xml → Except CxfError Geometry
  | .elem "GeometryChoice" [] [c] =>
    match c.tagOf with
    | some "SphereGeometry" => do
      let s ← decStrChild c
      .ok (.sphere s)
    | some "DirectionalGeometry" => do
      let s ← decStrChild c
      .ok (.directional s)
    | _ => .error (.schemaViolation "unknown geometry variant")
  | _ => .error (.schemaViolation "GeometryChoice")

def decodeMeasurementSpec : Xml → Except CxfError MeasurementSpec
  | .elem "MeasurementSpec" [] cs => do
    let (mt, cs) ← decReqChild "MeasurementType" decStrChild cs
    let (ge, cs) ← decReqChild "GeometryChoice" decodeGeometry cs
    let (wr, cs) ← decOptChild "WavelengthRange" decStrChild cs
    let (lu, cs) ← decOptChild "LuminanceUnitsType" decStrChild cs
    let (ca, cs) ← decOptChild "CalibrationStandard" decStrChild cs
    let (de, cs) ← decOptChild "Device" decStrChild cs
    let _ ← decDone cs
    .ok ⟨mt, ge, wr, lu, ca, de⟩
  | _ => .error (.schemaViolation "MeasurementSpec")

def decodeColorSpecification : Xml → Except CxfError ColorSpecification
  | .elem "ColorSpecification" attrs cs => do
    let (cid, attrs) ← decReqAttrS "Id" attrs
    let _ ← decAttrsDone attrs
    let (ts, cs) ← decOptChild "TristimulusSpec" decodeTristimulusSpec cs
    let (ms, cs) ← decOptChild "MeasurementSpec" decodeMeasurementSpec cs
    let (pa, cs) ← decOptChild "PhysicalAttributes" decodePhysicalAttributes cs
    let _ ← decDone cs
    .ok ⟨cid, ts, ms, pa⟩
  | _ => .error (.schemaViolation "ColorSpecification")

/-- Profile choice: exactly one of the two alternatives must be present
(spec section 3: a mutually exclusive choice). -/
def decodeProfileChoice : Xml → Except CxfError ProfileChoice
  | .elem "ProfileChoice" [(n, AVal.str s)] [] =>
    if n = "ProfileFile" then .ok (.file s)
    else if n = "ProfileUri" then .ok (.uri s)
    else .error (.schemaViolation "ProfileChoice")
  | _ => .error (.schemaViolation "ProfileChoice")

def decodeProfileParameter : Xml → Except CxfError ProfileParameter
  | .elem "ProfileParameter" attrs [] => do
    let (n, attrs) ← decReqAttrS "Name" attrs
    let (v, attrs) ← decReqAttrS "ValueChoice" attrs
    let _ ← decAttrsDone attrs
    .ok ⟨n, v⟩
  | _ => .error (.schemaViolation "ProfileParameter")

def decodeParameters : Xml → Except CxfError (List ProfileParameter)
  | .elem "Parameters" [] cs => mapME decodeProfileParameter cs
  | _ => .error (.schemaViolation "Parameters")

def decodeProfile : Xml → Except CxfError Profile
  | .elem "Profile" attrs cs => do
    let (pid, attrs) ← decReqAttrS "Id" attrs
    let _ ← decAttrsDone attrs
    let (di, cs) ← decReqChild "Direction"
      (decEnumChild ProfileDirection.ofString "Direction") cs
    let (pc, cs) ← decOptChild "ProfileChoice" decodeProfileChoice cs
    let (pp, cs) ← decOptChild "Parameters" decodeParameters cs
    let (cr, cs) ← decOptChild "Created" decStrChild cs
    let _ ← decDone cs
    .ok ⟨pid, di, pc, pp, cr⟩
  | _ => .error (.schemaViolation "Profile")

def decodeObjectCollection : Xml → Except CxfError (List Object)
  | .elem "ObjectCollection" [] cs => mapME decodeObject cs
  | _ => .error (.schemaViolation "ObjectCollection")

def decodeColorSpecificationCollection :
    Xml → Except CxfError (List ColorSpecification)
  | .elem "ColorSpecificationCollection" [] cs =>
    mapME decodeColorSpecification cs
  | _ => .error (.schemaViolation "ColorSpecificationCollection")

def decodeProfileCollection : Xml → Except CxfError (List Profile)
  | .elem "ProfileCollection" [] cs => mapME decodeProfile cs
  | _ => .error (.schemaViolation "ProfileCollection")

def decodeResources : Xml → Except CxfError Resources
  | .elem "Resources" [] cs => do
    let (oc, cs) ← decOptChild "ObjectCollection" decodeObjectCollection cs
    let (csc, cs) ← decOptChild "ColorSpecificationCollection"
      decodeColorSpecificationCollection cs
    let (pc, cs) ← decOptChild "ProfileCollection" decodeProfileCollection cs
    let _ ← decDone cs
    .ok ⟨oc, csc, pc⟩
  | _ => .error (.schemaViolation "Resources")

/-! ## Document-level integrity and the top-level pipeline -/

/-- All objects of a document (empty when the collection is absent). -/
def allObjects (d : CxF) : List Object :=
  match d.resources with
  | none => []
  | some r => r.object_collection.getD []

/-- All declared colour specifications of a document. -/
def allColorSpecs (d : CxF) : List ColorSpecification :=
  match d.resources with
  | none => []
  | some r => r.color_specification_collection.getD []

/-- The object ids of a document, in document order. -/
def objectIds (d : CxF) : List String := (allObjects d).map (·.id)

/-- The declared colour-specification ids of a document. -/
def specIds (d : CxF) : List String := (allColorSpecs d).map (·.id)

/-- The colour-specification reference of a colour value, when present. -/
def ColorValue.refOf : ColorValue → Option String
  | .cieLab c => c.color_specification
  | .srgb c => c.color_specification
  | .reflectance s => s.color_specification
  | .transmittance s => s.color_specification

/-- The colour-specification references used by one object's colour values. -/
def Object.refs (o : Object) : List String :=
  (o.color_values.getD []).filterMap ColorValue.refOf

/-- Every colour-specification reference used anywhere in a document. -/
def docRefs (d : CxF) : List String :=
  (allObjects d).foldr (fun o acc => o.refs ++ acc) []

/-- First id occurring more than once, scanning left to right. -/
def firstDup : List String → Option String
  | [] => none
  | x :: xs => if x ∈ xs then some x else firstDup xs

theorem firstDup_eq_none_iff (l : List String) :
    firstDup l = none ↔ l.Nodup := by
  induction l with
  | nil => simp [firstDup]
  | cons x xs ih =>
    by_cases hmem : x ∈ xs
    · simp [firstDup, hmem]
    · simp [firstDup, hmem, ih]

/-- Document-level cross-reference checks, modelled from the spec
(section 4.1 rule 5): duplicate object ids are rejected with a duplicate-key
error, unresolved colour-specification references with a
reference-integrity error. -/
def checkDoc (d : CxF) : Except CxfError CxF :=
  match firstDup (objectIds d) with
  | some i => .error (.duplicateKey i)
  | none =>
    match (docRefs d).find? (fun r => !(specIds d).contains r) with
    | some r => .error (.referenceIntegrity r)
    | none => .ok d

/-- Modelled from the spec: `decode(bytes) -> Result<Document, DecodeError>` —
the missing `read_cxf`; requires the `CxF` root under the fixed namespace,
structurally decodes the graph and then enforces document-level integrity. -/
def decodeDoc (x : Xml) : Except CxfError CxF :=
  match x with
  | .elem "CxF" [("xmlns", AVal.str ns)] cs =>
    if ns = cxfNamespace then do
      let (fi, cs) ← decOptChild "FileInformation" decodeFileInformation cs
      let (rs, cs) ← decOptChild "Resources" decodeResources cs
      let _ ← decDone cs
      checkDoc ⟨fi, rs⟩
    else .error (.schemaViolation "wrong namespace")
  | .elem "CxF" _ _ => .error (.schemaViolation "missing namespace")
  | .elem _ _ _ => .error (.schemaViolation "wrong root element")
  | .content _ => .error (.malformedMarkup "document root is not an element")

/-- Modelled from the spec: `validate(bytes) -> Result<(), ValidationError>`,
realized by running the decode pipeline (which performs the structural,
domain and cross-reference checks of section 4.1) and discarding the graph. -/
def validateDoc (x : Xml) : Except CxfError Unit :=
  match decodeDoc x with
  | .ok _ => .ok ()
  | .error e => .error e

/-! ## Schema invariants (spec section 3)

The predicate `ValidDoc` collects the section-3 invariants a decoded document
must satisfy: pairwise-distinct object ids, resolving colour-specification
references, sRGB channel bounds, positive start wavelengths, and non-empty
required text fields.  Enumerated fields hold values of their closed domains
by construction of the typed graph. -/

/-- Field-level validity of one colour value. -/
def ValidColorValue : ColorValue → Prop
  | .cieLab _ => True
  | .srgb c => 0 ≤ c.r ∧ c.r ≤ 255 ∧ 0 ≤ c.g ∧ c.g ≤ 255 ∧ 0 ≤ c.b ∧ c.b ≤ 255
  | .reflectance s => 0 < s.start_wl
  | .transmittance s => 0 < s.start_wl

/-- Field-level validity of one object. -/
def ValidObject (o : Object) : Prop :=
  o.name ≠ "" ∧ o.id ≠ "" ∧
  ∀ v ∈ o.color_values.getD [], ValidColorValue v

/-- A document satisfying the schema invariants of spec section 3. -/
def ValidDoc (d : CxF) : Prop :=
  (∀ o ∈ allObjects d, ValidObject o) ∧
  (objectIds d).Nodup ∧
  (∀ r ∈ docRefs d, r ∈ specIds d)

instance (v : ColorValue) : Decidable (ValidColorValue v) := by
  unfold ValidColorValue
  cases v <;> infer_instance

instance (o : Object) : Decidable (ValidObject o) := by
  unfold ValidObject
  infer_instance

instance (d : CxF) : Decidable (ValidDoc d) := by
  unfold ValidDoc
  infer_instance

/-! ## Concrete scenario documents -/

/-- Minimal document: only the root element (spec, concrete scenario A). -/
def xmlMinimal : Xml := .elem "CxF" [("xmlns", .str cxfNamespace)] []

/-- One object holding a CIELab value (L=50, A=10, B=-5) whose
colour-specification reference is `D65_2deg` (spec, concrete scenario B). -/
def objScenarioB : Xml :=
  .elem "Object"
    [("ObjectType", .str "Target"), ("Name", .str "Test"), ("Id", .str "1")]
    [encStrChild "CreationDate" "2025-01-01",
     .elem "ColorValues" []
       [.elem "ColorCIELab" [("ColorSpecification", .str "D65_2deg")]
         [encNumChild "L" 50, encNumChild "A" 10, encNumChild "B" (-5)]]]

/-- Scenario B document with the matching colour specification declared. -/
def docScenarioBOk : Xml :=
  .elem "CxF" [("xmlns", .str cxfNamespace)]
    [.elem "Resources" []
      [.elem "ObjectCollection" [] [objScenarioB],
       .elem "ColorSpecificationCollection" []
         [.elem "ColorSpecification" [("Id", .str "D65_2deg")] []]]]

/-- Scenario B document with the matching colour specification removed. -/
def docScenarioBBad : Xml :=
  .elem "CxF" [("xmlns", .str cxfNamespace)]
    [.elem "Resources" [] [.elem "ObjectCollection" [] [objScenarioB]]]

/-- The graph scenario B decodes to. -/
def decodedScenarioB : CxF :=
  ⟨none,
   some ⟨some [⟨"Target", "Test", "1", none, "2025-01-01", none,
                some [.cieLab ⟨50, 10, -5, none, some "D65_2deg"⟩],
                none, none, none⟩],
         some [⟨"D65_2deg", none, none, none⟩],
         none⟩⟩

/-- Object holding an sRGB value with the given channels. -/
def objWithSRGB (r g b : ℚ) : Xml :=
  .elem "Object"
    [("ObjectType", .str "Target"), ("Name", .str "Test"), ("Id", .str "1")]
    [encStrChild "CreationDate" "2025-01-01",
     .elem "ColorValues" []
       [.elem "ColorSRGB" []
         [encNumChild "R" r, encNumChild "G" g, encNumChild "B" b]]]

/-- Document holding one sRGB colour value (spec, concrete scenario C). -/
def docWithSRGB (r g b : ℚ) : Xml :=
  .elem "CxF" [("xmlns", .str cxfNamespace)]
    [.elem "Resources" [] [.elem "ObjectCollection" [] [objWithSRGB r g b]]]

/-- Object carrying only the required fields, with the given name and id. -/
def plainObj (name oid : String) : Xml :=
  .elem "Object"
    [("ObjectType", .str "Target"), ("Name", .str name), ("Id", .str oid)]
    [encStrChild "CreationDate" "2025-01-01"]

/-- Document with two objects sharing the id `duplicate`. -/
def docDupIds : Xml :=
  .elem "CxF" [("xmlns", .str cxfNamespace)]
    [.elem "Resources" []
      [.elem "ObjectCollection" []
        [plainObj "Test1" "duplicate", plainObj "Test2" "duplicate"]]]

/-- Document whose `Resources` holds no `ObjectCollection` element. -/
def docNoOCXml : Xml :=
  .elem "CxF" [("xmlns", .str cxfNamespace)] [.elem "Resources" [] []]

/-- Document whose `Resources` holds a present-but-empty `ObjectCollection`. -/
def docEmptyOCXml : Xml :=
  .elem "CxF" [("xmlns", .str cxfNamespace)]
    [.elem "Resources" [] [.elem "ObjectCollection" [] []]]

/-- Graph state of an absent object collection. -/
def docNoOC : CxF := ⟨none, some ⟨none, none, none⟩⟩

/-- Graph state of a present-but-empty object collection. -/
def docEmptyOC : CxF := ⟨none, some ⟨some [], none, none⟩⟩

/-! ## Claims settled on concrete scenarios -/

/-- C2: decoding a document in which one object holds a CIELab value
(L=50, A=10, B=-5) referencing the declared colour specification `D65_2deg`
succeeds and yields exactly that graph; the same document with the
declaration removed fails with a reference-integrity error. -/
theorem claim2_reference_integrity_scenario :
    decodeDoc docScenarioBOk = .ok decodedScenarioB ∧
    decodeDoc docScenarioBBad = .error (.referenceIntegrity "D65_2deg") := by
  decide

/-- C4: a document with no `ObjectCollection` element and one with a
present-but-empty `ObjectCollection` decode to two distinguishable graph
states, and encoding each state reproduces its original form. -/
theorem claim4_collection_state_distinction :
    decodeDoc docNoOCXml = .ok docNoOC ∧
    decodeDoc docEmptyOCXml = .ok docEmptyOC ∧
    docNoOC ≠ docEmptyOC ∧
    encodeDoc docNoOC = docNoOCXml ∧
    encodeDoc docEmptyOC = docEmptyOCXml := by
  refine ⟨by decide, by decide, by decide, rfl, rfl⟩

/-- C8: decoding the minimal document consisting of only the root element
succeeds with both optional fields absent, and encoding that graph yields the
root-only document again. -/
theorem claim8_minimal_document :
    decodeDoc xmlMinimal = .ok ⟨none, none⟩ ∧
    encodeDoc ⟨none, none⟩ = xmlMinimal := by
  exact ⟨by decide, rfl⟩

/-! ## Claims settled directly on the source model -/

/-- Embeds the colour-value union of `ColorValues.root`
(src lines 72-73): `list[ColorCIELab | ColorSRGB | ReflectanceSpectrum]` —
exactly three alternatives.  `TransmittanceSpectrum` (defined at src lines
63-68) is not among them. -/
inductive SrcColorValuesAlt where
  | colorCIELab
  | colorSRGB
  | reflectanceSpectrum
deriving DecidableEq

/-- Tag dispatch over the source union, as pydantic-xml resolves a list of
sub-models by each child's element tag: a child decodes exactly when its tag
is the tag of one union member. -/
def srcColorValuesDispatch (tag : String) : Option SrcColorValuesAlt :=
  if tag = "ColorCIELab" then some .colorCIELab
  else if tag = "ColorSRGB" then some .colorSRGB
  else if tag = "ReflectanceSpectrum" then some .reflectanceSpectrum
  else none

/-- C6 (code evaluation at the failing input): the source colour-value union
rejects a `TransmittanceSpectrum` child — the union covers only the three
embedded alternatives — so the variant set the spec states (four variants
including `TransmittanceSpectrum`) does not hold of the source model. -/
theorem claim6_transmittance_variant_missing :
    srcColorValuesDispatch "TransmittanceSpectrum" = none ∧
    srcColorValuesDispatch "ColorCIELab" = some .colorCIELab ∧
    srcColorValuesDispatch "ColorSRGB" = some .colorSRGB ∧
    srcColorValuesDispatch "ReflectanceSpectrum" = some .reflectanceSpectrum := by
  decide

/-- C5 (code evaluation at the failing input): the source `FinishType`
enumeration accepts the string `Cated` and rejects `Coated`, while the other
six members match the domain the spec states; the claimed domain
(Coated, Uncoated, Matte, Polished, Glossy, Satin, Other) therefore fails on
the source model at the value `Coated`. -/
theorem claim5_finish_type_domain_bug :
    FinishType.ofString "Coated" = none ∧
    FinishType.ofString "Cated" = some .COATED ∧
    FinishType.ofString "Uncoated" = some .UNCOATED ∧
    FinishType.ofString "Matte" = some .MATTE ∧
    FinishType.ofString "Polished" = some .POLISHED ∧
    FinishType.ofString "Glossy" = some .GLOSSY ∧
    FinishType.ofString "Satin" = some .SATIN ∧
    FinishType.ofString "Other" = some .OTHER := by
  decide

/-- Top-level names bound by `src/colour_cxf/__init__.py`, in textual order
(`PhysicalAttributes` is bound twice, at lines 184 and 232). -/
def srcModuleClassNames : List String :=
  ["Tag", "FileInformation", "CustomResources", "ColorSRGB", "ColorCIELab",
   "ReflectanceSpectrum", "TransmittanceSpectrum", "ColorValues",
   "DeltaCIELab", "ColorDifferenceValues", "TagCollection", "TargetType",
   "FinishType", "SubstrateType", "Quantity", "Height", "Width", "Length",
   "Thickness", "Gloss", "Opacity", "CustomAttributeString",
   "CustomAttributeValue", "Image", "PhysicalAttributes", "Object",
   "ObjectCollection", "TristimulusSpec", "MeasurementSpec",
   "PhysicalAttributes", "ColorSpecification",
   "ColorSpecificationCollection", "ProfileDirection", "ProfileChoice",
   "ProfileParameter", "Profile", "ProfileCollection", "Resources", "CxF"]

/-- Builtin type names the module's annotations may resolve without a local
class definition. -/
def srcAnnotationBuiltins : List String := ["float", "str", "int", "bool"]

/-- Type names referenced by the field annotations of `DeltaCIELab`
(src lines 79-91). -/
def deltaCIELabFieldTypeRefs : List String :=
  ["float", "DEcmcType", "DE94Type", "DE2000Type", "str"]

/-- C10 (code evaluation at the failing input): `DeltaCIELab` references the
type names `DEcmcType`, `DE94Type` and `DE2000Type`, none of which is bound
anywhere in the module or among the builtins, so evaluating the class body
raises a name error and the module defining every entity type fails to load
before any decode or encode can run. -/
theorem claim10_undefined_delta_types :
    ("DEcmcType" ∈ deltaCIELabFieldTypeRefs ∧
     "DEcmcType" ∉ srcModuleClassNames ∧
     "DEcmcType" ∉ srcAnnotationBuiltins) ∧
    ("DE94Type" ∈ deltaCIELabFieldTypeRefs ∧
     "DE94Type" ∉ srcModuleClassNames ∧
     "DE94Type" ∉ srcAnnotationBuiltins) ∧
    ("DE2000Type" ∈ deltaCIELabFieldTypeRefs ∧
     "DE2000Type" ∉ srcModuleClassNames ∧
     "DE2000Type" ∉ srcAnnotationBuiltins) := by
  decide

/-! ## Decoder inversion: every successfully decoded document satisfies the
schema invariants -/

theorem decOptChild_ok_prop {α : Type} {tag : String}
    {f : Xml → Except CxfError α} {P : α → Prop}
    (hf : ∀ x a, f x = .ok a → P a) :
    ∀ {xs : List Xml} {o : Option α} {rest : List Xml},
      decOptChild tag f xs = .ok (o, rest) → ∀ a, o = some a → P a := by
  intro xs o rest h a ha
  subst ha
  cases xs with
  | nil =>
    simp only [decOptChild] at h
    cases h
  | cons x xs =>
    simp only [decOptChild] at h
    split at h
    · rcases exceptBind_ok h with ⟨a0, hfa, hk⟩
      injection hk with h1
      injection h1 with h2 h3
      injection h2 with h4
      subst h4
      exact hf x a0 hfa
    · cases h

theorem decodeSRGB_ok_bounds {x : Xml} {c : ColorSRGB}
    (h : decodeSRGB x = .ok c) :
    0 ≤ c.r ∧ c.r ≤ 255 ∧ 0 ≤ c.g ∧ c.g ≤ 255 ∧ 0 ≤ c.b ∧ c.b ≤ 255 := by
  unfold decodeSRGB at h
  split at h
  case _ attrs cs =>
    rcases exceptBind_ok h with ⟨⟨name, a1⟩, _, h⟩
    rcases exceptBind_ok h with ⟨⟨cref, a2⟩, _, h⟩
    rcases exceptBind_ok h with ⟨u1, _, h⟩
    rcases exceptBind_ok h with ⟨⟨rv, c1⟩, _, h⟩
    rcases exceptBind_ok h with ⟨⟨gv, c2⟩, _, h⟩
    rcases exceptBind_ok h with ⟨⟨bv, c3⟩, _, h⟩
    rcases exceptBind_ok h with ⟨u2, _, h⟩
    split at h
    · next hbounds =>
      injection h with h1
      subst h1
      exact hbounds
    · cases h
  case _ => cases h

theorem decodeSpectrumPayload_ok_pos {x : Xml} {s : SpectrumData}
    (h : decodeSpectrumPayload x = .ok s) : 0 < s.start_wl := by
  unfold decodeSpectrumPayload at h
  split at h
  case _ attrs cs =>
    rcases exceptBind_ok h with ⟨⟨swl, a1⟩, _, h⟩
    rcases exceptBind_ok h with ⟨⟨name, a2⟩, _, h⟩
    rcases exceptBind_ok h with ⟨⟨cref, a3⟩, _, h⟩
    rcases exceptBind_ok h with ⟨u1, _, h⟩
    rcases exceptBind_ok h with ⟨⟨vals, c1⟩, _, h⟩
    rcases exceptBind_ok h with ⟨⟨mdate, c2⟩, _, h⟩
    rcases exceptBind_ok h with ⟨u2, _, h⟩
    split at h
    · next hpos =>
      injection h with h1
      subst h1
      exact hpos
    · cases h
  case _ => cases h

theorem decodeColorValue_ok_valid {x : Xml} {v : ColorValue}
    (h : decodeColorValue x = .ok v) : ValidColorValue v := by
  unfold decodeColorValue at h
  split at h
  · rcases exceptBind_ok h with ⟨c, hc, hk⟩
    injection hk with h1
    subst h1
    trivial
  · rcases exceptBind_ok h with ⟨c, hc, hk⟩
    injection hk with h1
    subst h1
    exact decodeSRGB_ok_bounds hc
  · rcases exceptBind_ok h with ⟨s, hs, hk⟩
    injection hk with h1
    subst h1
    exact decodeSpectrumPayload_ok_pos hs
  · rcases exceptBind_ok h with ⟨s, hs, hk⟩
    injection hk with h1
    subst h1
    exact decodeSpectrumPayload_ok_pos hs
  · cases h

theorem decodeColorValues_ok_valid {x : Xml} {l : List ColorValue}
    (h : decodeColorValues x = .ok l) : ∀ v ∈ l, ValidColorValue v := by
  unfold decodeColorValues at h
  split at h
  · exact mapME_ok_forall (fun x v hx => decodeColorValue_ok_valid hx) h
  · cases h

theorem decodeObject_ok_valid {x : Xml} {o : Object}
    (h : decodeObject x = .ok o) : ValidObject o := by
  unfold decodeObject at h
  split at h
  case _ attrs cs =>
    rcases exceptBind_ok h with ⟨⟨otype, a1⟩, _, h⟩
    rcases exceptBind_ok h with ⟨⟨nm, a2⟩, _, h⟩
    rcases exceptBind_ok h with ⟨⟨oid, a3⟩, _, h⟩
    rcases exceptBind_ok h with ⟨⟨guid, a4⟩, _, h⟩
    rcases exceptBind_ok h with ⟨u1, _, h⟩
    rcases exceptBind_ok h with ⟨⟨cdate, c1⟩, _, h⟩
    rcases exceptBind_ok h with ⟨⟨comment, c2⟩, _, h⟩
    rcases exceptBind_ok h with ⟨⟨cvs, c3⟩, hcv, h⟩
    rcases exceptBind_ok h with ⟨⟨cdv, c4⟩, _, h⟩
    rcases exceptBind_ok h with ⟨⟨tc, c5⟩, _, h⟩
    rcases exceptBind_ok h with ⟨⟨pa, c6⟩, _, h⟩
    rcases exceptBind_ok h with ⟨u2, _, h⟩
    split at h
    · cases h
    · next hn =>
      split at h
      · cases h
      · next hi =>
        injection h with h1
        subst h1
        refine ⟨hn, hi, ?_⟩
        intro v hv
        cases cvs with
        | none => cases hv
        | some lv =>
          exact decOptChild_ok_prop
            (fun x l hx => decodeColorValues_ok_valid hx) hcv lv rfl v hv
  case _ => cases h

theorem decodeObjectCollection_ok_valid {x : Xml} {l : List Object}
    (h : decodeObjectCollection x = .ok l) : ∀ o ∈ l, ValidObject o := by
  unfold decodeObjectCollection at h
  split at h
  · exact mapME_ok_forall (fun x o hx => decodeObject_ok_valid hx) h
  · cases h

theorem decodeResources_ok_valid {x : Xml} {r : Resources}
    (h : decodeResources x = .ok r) :
    ∀ o ∈ r.object_collection.getD [], ValidObject o := by
  unfold decodeResources at h
  split at h
  case _ cs =>
    rcases exceptBind_ok h with ⟨⟨oc, c1⟩, hoc, h⟩
    rcases exceptBind_ok h with ⟨⟨csc, c2⟩, _, h⟩
    rcases exceptBind_ok h with ⟨⟨pc, c3⟩, _, h⟩
    rcases exceptBind_ok h with ⟨u1, _, h⟩
    injection h with h1
    subst h1
    intro o ho
    cases oc with
    | none => cases ho
    | some lo =>
      exact decOptChild_ok_prop
        (fun x l hx => decodeObjectCollection_ok_valid hx) hoc lo rfl o ho
  case _ => cases h

theorem checkDoc_ok {d d' : CxF} (h : checkDoc d = .ok d') :
    d' = d ∧ (objectIds d).Nodup ∧ ∀ r ∈ docRefs d, r ∈ specIds d := by
  unfold checkDoc at h
  split at h
  · cases h
  · next hfd =>
    split at h
    · cases h
    · next hfind =>
      injection h with h1
      subst h1
      refine ⟨rfl, (firstDup_eq_none_iff _).mp hfd, ?_⟩
      intro r hr
      have hx := List.find?_eq_none.mp hfind r hr
      simpa using hx

/-- A successfully checked document is returned unchanged when it is valid. -/
theorem checkDoc_of_valid {d : CxF} (h1 : (objectIds d).Nodup)
    (h2 : ∀ r ∈ docRefs d, r ∈ specIds d) : checkDoc d = .ok d := by
  unfold checkDoc
  have hfd : firstDup (objectIds d) = none := (firstDup_eq_none_iff _).mpr h1
  have hfind : (docRefs d).find? (fun r => !(specIds d).contains r) = none := by
    rw [List.find?_eq_none]
    intro r hr
    simpa using h2 r hr
  rw [hfd, hfind]

/-- Main decoder-soundness lemma: every document the decoder accepts
satisfies the schema invariants of spec section 3. -/
theorem decodeDoc_ok_valid {x : Xml} {d : CxF}
    (h : decodeDoc x = .ok d) : ValidDoc d := by
  unfold decodeDoc at h
  split at h
  case _ ns cs =>
    split at h
    · rcases exceptBind_ok h with ⟨⟨fi, c1⟩, _, h⟩
      rcases exceptBind_ok h with ⟨⟨rs, c2⟩, hrs, h⟩
      rcases exceptBind_ok h with ⟨u1, _, h⟩
      obtain ⟨hd, hnd, href⟩ := checkDoc_ok h
      subst hd
      refine ⟨?_, hnd, href⟩
      intro o ho
      cases rs with
      | none => cases ho
      | some r =>
        have hval := decOptChild_ok_prop
          (fun x r hx => decodeResources_ok_valid hx) hrs r rfl
        simp only [allObjects] at ho
        exact hval o ho
    · cases h
  case _ => cases h
  case _ => cases h
  case _ => cases h

/-- C9: if validation succeeds on an input, decoding it succeeds as well and
the resulting document satisfies the schema invariants of spec section 3. -/
theorem claim9_validation_monotonicity (x : Xml)
    (h : validateDoc x = .ok ()) :
    ∃ d, decodeDoc x = .ok d ∧ ValidDoc d := by
  unfold validateDoc at h
  split at h
  · next d hd => exact ⟨d, hd, decodeDoc_ok_valid hd⟩
  · cases h

/-- Witness for C9 at the minimal document. -/
theorem claim9_witness :
    ∃ d, decodeDoc xmlMinimal = .ok d ∧ ValidDoc d :=
  claim9_validation_monotonicity xmlMinimal (by decide)

/-- Decoded form of the in-range scenario-C sRGB object. -/
def decodedSRGBOkObj : Object :=
  ⟨"Target", "Test", "1", none, "2025-01-01", none,
   some [.srgb ⟨255, 128, 0, none, none⟩], none, none, none⟩

/-- Decoded form of the in-range scenario-C document. -/
def decodedSRGBOk : CxF :=
  ⟨none, some ⟨some [decodedSRGBOkObj], none, none⟩⟩

/-- C3: decoding a document whose sRGB value has a channel outside the closed
interval from 0 to 255 (R=300) fails with a domain violation, an in-range one
(R=255, G=128, B=0) succeeds, and no document holding an out-of-range sRGB
value is ever decoded: every colour value of every decoded document is
field-valid. -/
theorem claim3_srgb_bounds :
    decodeDoc (docWithSRGB 300 128 0) =
      .error (.domainViolation "sRGB channel out of range") ∧
    (decodeDoc (docWithSRGB 255 128 0)).isOk = true ∧
    ∀ x d, decodeDoc x = .ok d →
      ∀ o ∈ allObjects d, ∀ v ∈ o.color_values.getD [], ValidColorValue v := by
  refine ⟨by decide, by decide, ?_⟩
  intro x d hd o ho v hv
  exact ((decodeDoc_ok_valid hd).1 o ho).2.2 v hv

/-- Witness for C3's universal part at the decoded in-range document. -/
theorem claim3_witness :
    ValidColorValue (ColorValue.srgb ⟨255, 128, 0, none, none⟩) :=
  claim3_srgb_bounds.2.2 (docWithSRGB 255 128 0) decodedSRGBOk (by decide)
    decodedSRGBOkObj (by decide) (ColorValue.srgb ⟨255, 128, 0, none, none⟩)
    (by decide)

/-- C7: a document holding two objects with the same id fails to decode with
a duplicate-key error, and every successfully decoded document has
pairwise-distinct object ids. -/
theorem claim7_duplicate_object_ids :
    decodeDoc docDupIds = .error (.duplicateKey "duplicate") ∧
    ∀ x d, decodeDoc x = .ok d → (objectIds d).Nodup := by
  refine ⟨by decide, ?_⟩
  intro x d hd
  exact (decodeDoc_ok_valid hd).2.1

/-- Witness for C7's universal part at the decoded scenario-B document. -/
theorem claim7_witness : (objectIds decodedScenarioB).Nodup :=
  claim7_duplicate_object_ids.2 docScenarioBOk decodedScenarioB (by decide)

/-! ## Round-trip: decoding an encoded document recovers the graph

The lemmas below step through one schema slot at a time: decoding the
emission of one slot followed by the remaining emissions consumes exactly
that slot, provided the remaining children carry tags of later slots. -/

theorem decOptChild_bind_roundtrip {α β : Type} {tag : String}
    {f : Xml → Except CxfError α} {g : α → Xml} (S : List String)
    {o : Option α} {rest : List Xml}
    {k : Option α × List Xml → Except CxfError β} {b : β}
    (hf : ∀ a, o = some a → f (g a) = .ok a)
    (ht : ∀ a, (g a).tagOf = some tag)
    (hrest : TagsAmong rest S) (hS : tag ∉ S)
    (hk : k (o, rest) = .ok b) :
    (decOptChild tag f (encOptChild g o ++ rest) >>= k) = .ok b := by
  rw [decOptChild_roundtrip o rest hf ht hrest hS]
  exact hk

theorem decOptChild_bind_roundtrip_last {α β : Type} {tag : String}
    {f : Xml → Except CxfError α} {g : α → Xml}
    {o : Option α} {k : Option α × List Xml → Except CxfError β} {b : β}
    (hf : ∀ a, o = some a → f (g a) = .ok a)
    (ht : ∀ a, (g a).tagOf = some tag)
    (hk : k (o, []) = .ok b) :
    (decOptChild tag f (encOptChild g o) >>= k) = .ok b := by
  cases o with
  | none => exact hk
  | some a =>
    have h1 : decOptChild tag f [g a] = .ok (some a, []) := by
      simp [decOptChild, ht a, hf a rfl]
    show (decOptChild tag f [g a] >>= k) = .ok b
    rw [h1]
    exact hk

theorem decReqChild_bind_roundtrip {α β : Type} {tag : String}
    {f : Xml → Except CxfError α} {g : α → Xml}
    {a : α} {rest : List Xml}
    {k : α × List Xml → Except CxfError β} {b : β}
    (hf : f (g a) = .ok a) (ht : (g a).tagOf = some tag)
    (hk : k (a, rest) = .ok b) :
    (decReqChild tag f (g a :: rest) >>= k) = .ok b := by
  rw [decReqChild_roundtrip a rest hf ht]
  exact hk

theorem decDone_bind {β : Type} {k : Unit → Except CxfError β} {b : β}
    (hk : k () = .ok b) : (decDone [] >>= k) = .ok b := hk

theorem decAttrsDone_bind {β : Type} {k : Unit → Except CxfError β} {b : β}
    (hk : k () = .ok b) : (decAttrsDone [] >>= k) = .ok b := hk

theorem mapME_bind_roundtrip {α β γ : Type} {f : β → Except CxfError α}
    {g : α → β} {l : List α} {k : List α → Except CxfError γ} {c : γ}
    (h : ∀ a ∈ l, f (g a) = .ok a) (hk : k l = .ok c) :
    (mapME f (l.map g) >>= k) = .ok c := by
  rw [mapME_map l h]
  exact hk

theorem keysAmong_append {xs ys : List (String × AVal)} {S : List String}
    (hx : KeysAmong xs S) (hy : KeysAmong ys S) : KeysAmong (xs ++ ys) S := by
  intro p hp
  rcases List.mem_append.mp hp with h | h
  · exact hx p h
  · exact hy p h

theorem decOptAttrS_bind_roundtrip {β : Type} {name : String}
    (S : List String) {o : Option String} {rest : List (String × AVal)}
    {k : Option String × List (String × AVal) → Except CxfError β} {b : β}
    (hrest : KeysAmong rest S) (hS : name ∉ S)
    (hk : k (o, rest) = .ok b) :
    (decOptAttrS name (encOptAttrS name o ++ rest) >>= k) = .ok b := by
  rw [decOptAttrS_roundtrip o rest hrest hS]
  exact hk

theorem decOptAttrS_bind_roundtrip_last {β : Type} {name : String}
    {o : Option String}
    {k : Option String × List (String × AVal) → Except CxfError β} {b : β}
    (hk : k (o, []) = .ok b) :
    (decOptAttrS name (encOptAttrS name o) >>= k) = .ok b := by
  cases o with
  | none => exact hk
  | some s =>
    have h1 : decOptAttrS name [(name, AVal.str s)] = .ok (some s, []) := by
      simp [decOptAttrS]
    show (decOptAttrS name [(name, AVal.str s)] >>= k) = .ok b
    rw [h1]
    exact hk

theorem decReqAttrS_bind_roundtrip {β : Type} {name s : String}
    {rest : List (String × AVal)}
    {k : String × List (String × AVal) → Except CxfError β} {b : β}
    (hk : k (s, rest) = .ok b) :
    (decReqAttrS name ((name, AVal.str s) :: rest) >>= k) = .ok b := by
  rw [decReqAttrS_roundtrip name s rest]
  exact hk

theorem decReqAttrQ_bind_roundtrip {β : Type} {name : String} {q : ℚ}
    {rest : List (String × AVal)}
    {k : ℚ × List (String × AVal) → Except CxfError β} {b : β}
    (hk : k (q, rest) = .ok b) :
    (decReqAttrQ name ((name, AVal.num q) :: rest) >>= k) = .ok b := by
  rw [decReqAttrQ_roundtrip name q rest]
  exact hk

theorem decodeTag_enc (t : Tag) : decodeTag (encodeTag t) = .ok t := by
  simp [decodeTag, encodeTag, decReqAttrS, decAttrsDone]

theorem decodeFileInformation_enc (fi : FileInformation) :
    decodeFileInformation (encodeFileInformation fi) = .ok fi := by
  obtain ⟨cr, cd, de, co, tg⟩ := fi
  simp only [encodeFileInformation, decodeFileInformation, List.append_assoc]
  apply decOptChild_bind_roundtrip ["CreationDate", "Description", "Comment", "Tag"]
  · intro a _
    exact decStrChild_enc "Creator" a
  · intro a
    rfl
  · repeat' apply tagsAmong_append
    all_goals
      first
      | exact tagsAmong_encOpt (by intro a; rfl) (by decide) _
      | exact tagsAmong_map (by intro a; rfl) (by decide) _
  · decide
  apply decOptChild_bind_roundtrip ["Description", "Comment", "Tag"]
  · intro a _
    exact decStrChild_enc "CreationDate" a
  · intro a
    rfl
  · repeat' apply tagsAmong_append
    all_goals
      first
      | exact tagsAmong_encOpt (by intro a; rfl) (by decide) _
      | exact tagsAmong_map (by intro a; rfl) (by decide) _
  · decide
  apply decOptChild_bind_roundtrip ["Comment", "Tag"]
  · intro a _
    exact decStrChild_enc "Description" a
  · intro a
    rfl
  · repeat' apply tagsAmong_append
    all_goals
      first
      | exact tagsAmong_encOpt (by intro a; rfl) (by decide) _
      | exact tagsAmong_map (by intro a; rfl) (by decide) _
  · decide
  apply decOptChild_bind_roundtrip ["Tag"]
  · intro a _
    exact decStrChild_enc "Comment" a
  · intro a
    rfl
  · exact tagsAmong_map (by intro a; rfl) (by decide) _
  · decide
  apply mapME_bind_roundtrip
  · intro a _
    exact decodeTag_enc a
  rfl

theorem decodeCIELab_enc (c : ColorCIELab) :
    decodeCIELab (encodeCIELab c) = .ok c := by
  obtain ⟨lv, av, bv, nm, cs⟩ := c
  simp only [encodeCIELab, decodeCIELab, List.append_assoc]
  apply decOptAttrS_bind_roundtrip ["ColorSpecification"]
  · exact keysAmong_encOpt (by decide) _
  · decide
  apply decOptAttrS_bind_roundtrip_last
  apply decAttrsDone_bind
  apply decReqChild_bind_roundtrip
  · exact decNumChild_enc "L" lv
  · rfl
  apply decReqChild_bind_roundtrip
  · exact decNumChild_enc "A" av
  · rfl
  apply decReqChild_bind_roundtrip
  · exact decNumChild_enc "B" bv
  · rfl
  apply decDone_bind
  rfl

theorem decodeSRGB_enc (c : ColorSRGB)
    (h : 0 ≤ c.r ∧ c.r ≤ 255 ∧ 0 ≤ c.g ∧ c.g ≤ 255 ∧ 0 ≤ c.b ∧ c.b ≤ 255) :
    decodeSRGB (encodeSRGB c) = .ok c := by
  obtain ⟨rv, gv, bv, nm, cs⟩ := c
  simp only [encodeSRGB, decodeSRGB, List.append_assoc]
  apply decOptAttrS_bind_roundtrip ["ColorSpecification"]
  · exact keysAmong_encOpt (by decide) _
  · decide
  apply decOptAttrS_bind_roundtrip_last
  apply decAttrsDone_bind
  apply decReqChild_bind_roundtrip
  · exact decNumChild_enc "R" rv
  · rfl
  apply decReqChild_bind_roundtrip
  · exact decNumChild_enc "G" gv
  · rfl
  apply decReqChild_bind_roundtrip
  · exact decNumChild_enc "B" bv
  · rfl
  apply decDone_bind
  rw [if_pos h]

theorem decodeSpectrumPayload_enc (tag : String) (s : SpectrumData)
    (h : 0 < s.start_wl) :
    decodeSpectrumPayload (encodeSpectrum tag s) = .ok s := by
  obtain ⟨vals, swl, nm, md, cs⟩ := s
  simp only [encodeSpectrum, decodeSpectrumPayload, List.append_assoc,
    List.cons_append, List.nil_append, List.singleton_append]
  apply decReqAttrQ_bind_roundtrip
  apply decOptAttrS_bind_roundtrip ["ColorSpecification"]
  · exact keysAmong_encOpt (by decide) _
  · decide
  apply decOptAttrS_bind_roundtrip_last
  apply decAttrsDone_bind
  apply decReqChild_bind_roundtrip
  · exact rfl
  · rfl
  apply decOptChild_bind_roundtrip_last
  · intro a _
    exact decStrChild_enc "MeasureDate" a
  · intro a
    rfl
  apply decDone_bind
  rw [if_pos h]



theorem decodeColorValue_enc (v : ColorValue) (h : ValidColorValue v) :
    decodeColorValue (encodeColorValue v) = .ok v := by
  cases v with
  | cieLab c =>
    show (decodeCIELab (encodeCIELab c) >>=
      fun c => Except.ok (ColorValue.cieLab c)) = _
    rw [decodeCIELab_enc]
    rfl
  | srgb c =>
    show (decodeSRGB (encodeSRGB c) >>=
      fun c => Except.ok (ColorValue.srgb c)) = _
    rw [decodeSRGB_enc c h]
    rfl
  | reflectance s =>
    show (decodeSpectrumPayload (encodeSpectrum "ReflectanceSpectrum" s) >>=
      fun s => Except.ok (ColorValue.reflectance s)) = _
    rw [decodeSpectrumPayload_enc "ReflectanceSpectrum" s h]
    rfl
  | transmittance s =>
    show (decodeSpectrumPayload (encodeSpectrum "TransmittanceSpectrum" s) >>=
      fun s => Except.ok (ColorValue.transmittance s)) = _
    rw [decodeSpectrumPayload_enc "TransmittanceSpectrum" s h]
    rfl

theorem decodeColorValues_enc (l : List ColorValue)
    (h : ∀ v ∈ l, ValidColorValue v) :
    decodeColorValues (encodeColorValues l) = .ok l := by
  show mapME decodeColorValue (l.map encodeColorValue) = .ok l
  exact mapME_map l (fun v hv => decodeColorValue_enc v (h v hv))

theorem decodeTagCollection_enc (l : List Tag) :
    decodeTagCollection (encodeTagCollection l) = .ok l := by
  show mapME decodeTag (l.map encodeTag) = .ok l
  exact mapME_map l (fun t _ => decodeTag_enc t)

theorem decodeValueUnit_enc (tag : String) (v : ValueUnit) :
    decodeValueUnit (encodeValueUnit tag v) = .ok v := by
  obtain ⟨q, u⟩ := v
  simp only [encodeValueUnit, decodeValueUnit]
  apply decOptAttrS_bind_roundtrip_last
  apply decAttrsDone_bind
  rfl

theorem decodeValueMethod_enc (tag : String) (v : ValueMethod) :
    decodeValueMethod (encodeValueMethod tag v) = .ok v := by
  obtain ⟨q, m⟩ := v
  simp only [encodeValueMethod, decodeValueMethod]
  apply decOptAttrS_bind_roundtrip_last
  apply decAttrsDone_bind
  rfl

theorem decodeCustomAttr_enc (tag : String) (v : CustomAttr) :
    decodeCustomAttr (encodeCustomAttr tag v) = .ok v := by
  obtain ⟨la, me⟩ := v
  simp only [encodeCustomAttr, decodeCustomAttr, List.append_assoc]
  apply decOptAttrS_bind_roundtrip ["Method"]
  · exact keysAmong_encOpt (by decide) _
  · decide
  apply decOptAttrS_bind_roundtrip_last
  apply decAttrsDone_bind
  rfl



theorem decodePhysicalAttributes_enc (pa : PhysicalAttributes) :
    decodePhysicalAttributes (encodePhysicalAttributes pa) = .ok pa := by
  obtain ⟨tt, ft, st, qu, he, wi, le, th, gl, op, cas, cav, im⟩ := pa
  simp only [encodePhysicalAttributes, decodePhysicalAttributes, List.append_assoc]
  apply decOptChild_bind_roundtrip ["FinishType", "SubstrateType", "Quantity", "Height", "Width", "Length", "Thickness", "Gloss", "Opacity", "CustomAttributeString", "CustomAttributeValue", "Image"]
  · intro a _
    simp [decEnumChild, targetType_value_roundtrip]
  · intro a
    rfl
  · repeat' apply tagsAmong_append
    all_goals exact tagsAmong_encOpt (by intro a; rfl) (by decide) _
  · decide
  apply decOptChild_bind_roundtrip ["SubstrateType", "Quantity", "Height", "Width", "Length", "Thickness", "Gloss", "Opacity", "CustomAttributeString", "CustomAttributeValue", "Image"]
  · intro a _
    simp [decEnumChild, finishTypeSpec_value_roundtrip]
  · intro a
    rfl
  · repeat' apply tagsAmong_append
    all_goals exact tagsAmong_encOpt (by intro a; rfl) (by decide) _
  · decide
  apply decOptChild_bind_roundtrip ["Quantity", "Height", "Width", "Length", "Thickness", "Gloss", "Opacity", "CustomAttributeString", "CustomAttributeValue", "Image"]
  · intro a _
    simp [decEnumChild, substrateType_value_roundtrip]
  · intro a
    rfl
  · repeat' apply tagsAmong_append
    all_goals exact tagsAmong_encOpt (by intro a; rfl) (by decide) _
  · decide
  apply decOptChild_bind_roundtrip ["Height", "Width", "Length", "Thickness", "Gloss", "Opacity", "CustomAttributeString", "CustomAttributeValue", "Image"]
  · intro a _
    exact decodeValueUnit_enc "Quantity" a
  · intro a
    rfl
  · repeat' apply tagsAmong_append
    all_goals exact tagsAmong_encOpt (by intro a; rfl) (by decide) _
  · decide
  apply decOptChild_bind_roundtrip ["Width", "Length", "Thickness", "Gloss", "Opacity", "CustomAttributeString", "CustomAttributeValue", "Image"]
  · intro a _
    exact decodeValueUnit_enc "Height" a
  · intro a
    rfl
  · repeat' apply tagsAmong_append
    all_goals exact tagsAmong_encOpt (by intro a; rfl) (by decide) _
  · decide
  apply decOptChild_bind_roundtrip ["Length", "Thickness", "Gloss", "Opacity", "CustomAttributeString", "CustomAttributeValue", "Image"]
  · intro a _
    exact decodeValueUnit_enc "Width" a
  · intro a
    rfl
  · repeat' apply tagsAmong_append
    all_goals exact tagsAmong_encOpt (by intro a; rfl) (by decide) _
  · decide
  apply decOptChild_bind_roundtrip ["Thickness", "Gloss", "Opacity", "CustomAttributeString", "CustomAttributeValue", "Image"]
  · intro a _
    exact decodeValueUnit_enc "Length" a
  · intro a
    rfl
  · repeat' apply tagsAmong_append
    all_goals exact tagsAmong_encOpt (by intro a; rfl) (by decide) _
  · decide
  apply decOptChild_bind_roundtrip ["Gloss", "Opacity", "CustomAttributeString", "CustomAttributeValue", "Image"]
  · intro a _
    exact decodeValueUnit_enc "Thickness" a
  · intro a
    rfl
  · repeat' apply tagsAmong_append
    all_goals exact tagsAmong_encOpt (by intro a; rfl) (by decide) _
  · decide
  apply decOptChild_bind_roundtrip ["Opacity", "CustomAttributeString", "CustomAttributeValue", "Image"]
  · intro a _
    exact decodeValueMethod_enc "Gloss" a
  · intro a
    rfl
  · repeat' apply tagsAmong_append
    all_goals exact tagsAmong_encOpt (by intro a; rfl) (by decide) _
  · decide
  apply decOptChild_bind_roundtrip ["CustomAttributeString", "CustomAttributeValue", "Image"]
  · intro a _
    exact decodeValueMethod_enc "Opacity" a
  · intro a
    rfl
  · repeat' apply tagsAmong_append
    all_goals exact tagsAmong_encOpt (by intro a; rfl) (by decide) _
  · decide
  apply decOptChild_bind_roundtrip ["CustomAttributeValue", "Image"]
  · intro a _
    exact decodeCustomAttr_enc "CustomAttributeString" a
  · intro a
    rfl
  · repeat' apply tagsAmong_append
    all_goals exact tagsAmong_encOpt (by intro a; rfl) (by decide) _
  · decide
  apply decOptChild_bind_roundtrip ["Image"]
  · intro a _
    exact decodeCustomAttr_enc "CustomAttributeValue" a
  · intro a
    rfl
  · exact tagsAmong_encOpt (by intro a; rfl) (by decide) _
  · decide
  apply decOptChild_bind_roundtrip_last
  · intro a _
    exact decStrChild_enc "Image" a
  · intro a
    rfl
  apply decDone_bind
  rfl



theorem decodeObject_enc (o : Object) (hn : o.name ≠ "") (hi : o.id ≠ "")
    (hv : ∀ v ∈ o.color_values.getD [], ValidColorValue v) :
    decodeObject (encodeObject o) = .ok o := by
  obtain ⟨ot, nm, oid, gd, cd, cm, cvs, cdv, tc, pa⟩ := o
  simp only [encodeObject, decodeObject, List.append_assoc, List.cons_append,
    List.singleton_append, List.nil_append]
  apply decReqAttrS_bind_roundtrip
  apply decReqAttrS_bind_roundtrip
  apply decReqAttrS_bind_roundtrip
  apply decOptAttrS_bind_roundtrip_last
  apply decAttrsDone_bind
  apply decReqChild_bind_roundtrip
  · exact decStrChild_enc "CreationDate" cd
  · rfl
  apply decOptChild_bind_roundtrip
    ["ColorValues", "ColorDifferenceValues", "TagCollection", "PhysicalAttributes"]
  · intro a _
    exact decStrChild_enc "Comment" a
  · intro a
    rfl
  · repeat' apply tagsAmong_append
    all_goals exact tagsAmong_encOpt (by intro a; rfl) (by decide) _
  · decide
  apply decOptChild_bind_roundtrip
    ["ColorDifferenceValues", "TagCollection", "PhysicalAttributes"]
  · intro a ha
    refine decodeColorValues_enc a ?_
    rw [ha] at hv
    exact hv
  · intro a
    rfl
  · repeat' apply tagsAmong_append
    all_goals exact tagsAmong_encOpt (by intro a; rfl) (by decide) _
  · decide
  apply decOptChild_bind_roundtrip ["TagCollection", "PhysicalAttributes"]
  · intro a _
    cases a
    rfl
  · intro a
    rfl
  · repeat' apply tagsAmong_append
    all_goals exact tagsAmong_encOpt (by intro a; rfl) (by decide) _
  · decide
  apply decOptChild_bind_roundtrip ["PhysicalAttributes"]
  · intro a _
    exact decodeTagCollection_enc a
  · intro a
    rfl
  · exact tagsAmong_encOpt (by intro a; rfl) (by decide) _
  · decide
  apply decOptChild_bind_roundtrip_last
  · intro a _
    exact decodePhysicalAttributes_enc a
  · intro a
    rfl
  apply decDone_bind
  rw [if_neg hn, if_neg hi]

theorem decodeTristimulusSpec_enc (t : TristimulusSpec) :
    decodeTristimulusSpec (encodeTristimulusSpec t) = .ok t := by
  obtain ⟨il, ci, ob, me⟩ := t
  simp only [encodeTristimulusSpec, decodeTristimulusSpec, List.append_assoc]
  apply decOptChild_bind_roundtrip ["CustomIlluminant", "Observer", "Method"]
  · intro a _
    exact decStrChild_enc "Illuminant" a
  · intro a
    rfl
  · repeat' apply tagsAmong_append
    all_goals exact tagsAmong_encOpt (by intro a; rfl) (by decide) _
  · decide
  apply decOptChild_bind_roundtrip ["Observer", "Method"]
  · intro a _
    exact decStrChild_enc "CustomIlluminant" a
  · intro a
    rfl
  · repeat' apply tagsAmong_append
    all_goals exact tagsAmong_encOpt (by intro a; rfl) (by decide) _
  · decide
  apply decOptChild_bind_roundtrip ["Method"]
  · intro a _
    exact decStrChild_enc "Observer" a
  · intro a
    rfl
  · exact tagsAmong_encOpt (by intro a; rfl) (by decide) _
  · decide
  apply decOptChild_bind_roundtrip_last
  · intro a _
    exact decStrChild_enc "Method" a
  · intro a
    rfl
  apply decDone_bind
  rfl

theorem decodeGeometry_enc (g : Geometry) :
    decodeGeometry (encodeGeometry g) = .ok g := by
  cases g <;> rfl

theorem encodeGeometry_tagOf (g : Geometry) :
    (encodeGeometry g).tagOf = some "GeometryChoice" := by
  cases g <;> rfl

theorem decodeMeasurementSpec_enc (m : MeasurementSpec) :
    decodeMeasurementSpec (encodeMeasurementSpec m) = .ok m := by
  obtain ⟨mt, ge, wr, lu, ca, de⟩ := m
  simp only [encodeMeasurementSpec, decodeMeasurementSpec, List.append_assoc,
    List.cons_append, List.singleton_append, List.nil_append]
  apply decReqChild_bind_roundtrip
  · exact decStrChild_enc "MeasurementType" mt
  · rfl
  apply decReqChild_bind_roundtrip
  · exact decodeGeometry_enc ge
  · exact encodeGeometry_tagOf ge
  apply decOptChild_bind_roundtrip
    ["LuminanceUnitsType", "CalibrationStandard", "Device"]
  · intro a _
    exact decStrChild_enc "WavelengthRange" a
  · intro a
    rfl
  · repeat' apply tagsAmong_append
    all_goals exact tagsAmong_encOpt (by intro a; rfl) (by decide) _
  · decide
  apply decOptChild_bind_roundtrip ["CalibrationStandard", "Device"]
  · intro a _
    exact decStrChild_enc "LuminanceUnitsType" a
  · intro a
    rfl
  · repeat' apply tagsAmong_append
    all_goals exact tagsAmong_encOpt (by intro a; rfl) (by decide) _
  · decide
  apply decOptChild_bind_roundtrip ["Device"]
  · intro a _
    exact decStrChild_enc "CalibrationStandard" a
  · intro a
    rfl
  · exact tagsAmong_encOpt (by intro a; rfl) (by decide) _
  · decide
  apply decOptChild_bind_roundtrip_last
  · intro a _
    exact decStrChild_enc "Device" a
  · intro a
    rfl
  apply decDone_bind
  rfl

theorem decodeColorSpecification_enc (c : ColorSpecification) :
    decodeColorSpecification (encodeColorSpecification c) = .ok c := by
  obtain ⟨cid, ts, ms, pa⟩ := c
  simp only [encodeColorSpecification, decodeColorSpecification,
    List.append_assoc]
  apply decReqAttrS_bind_roundtrip
  apply decAttrsDone_bind
  apply decOptChild_bind_roundtrip ["MeasurementSpec", "PhysicalAttributes"]
  · intro a _
    exact decodeTristimulusSpec_enc a
  · intro a
    rfl
  · repeat' apply tagsAmong_append
    all_goals exact tagsAmong_encOpt (by intro a; rfl) (by decide) _
  · decide
  apply decOptChild_bind_roundtrip ["PhysicalAttributes"]
  · intro a _
    exact decodeMeasurementSpec_enc a
  · intro a
    rfl
  · exact tagsAmong_encOpt (by intro a; rfl) (by decide) _
  · decide
  apply decOptChild_bind_roundtrip_last
  · intro a _
    exact decodePhysicalAttributes_enc a
  · intro a
    rfl
  apply decDone_bind
  rfl

theorem decodeProfileChoice_enc (p : ProfileChoice) :
    decodeProfileChoice (encodeProfileChoice p) = .ok p := by
  cases p <;> simp [decodeProfileChoice, encodeProfileChoice]

theorem decodeProfileParameter_enc (p : ProfileParameter) :
    decodeProfileParameter (encodeProfileParameter p) = .ok p := by
  simp [decodeProfileParameter, encodeProfileParameter, decReqAttrS,
    decAttrsDone]

theorem decodeParameters_enc (l : List ProfileParameter) :
    decodeParameters (encodeParameters l) = .ok l := by
  show mapME decodeProfileParameter (l.map encodeProfileParameter) = .ok l
  exact mapME_map l (fun p _ => decodeProfileParameter_enc p)

theorem encodeProfileChoice_tagOf (p : ProfileChoice) :
    (encodeProfileChoice p).tagOf = some "ProfileChoice" := by
  cases p <;> rfl

theorem decodeProfile_enc (p : Profile) :
    decodeProfile (encodeProfile p) = .ok p := by
  obtain ⟨pid, di, pc, pp, cr⟩ := p
  simp only [encodeProfile, decodeProfile, List.append_assoc,
    List.cons_append, List.singleton_append, List.nil_append]
  apply decReqAttrS_bind_roundtrip
  apply decAttrsDone_bind
  apply decReqChild_bind_roundtrip
  · show decEnumChild ProfileDirection.ofString "Direction" (encodeDirection di) = .ok di
    simp [decEnumChild, encodeDirection, profileDirection_value_roundtrip]
  · rfl
  apply decOptChild_bind_roundtrip ["Parameters", "Created"]
  · intro a _
    exact decodeProfileChoice_enc a
  · intro a
    exact encodeProfileChoice_tagOf a
  · repeat' apply tagsAmong_append
    all_goals exact tagsAmong_encOpt (by intro a; rfl) (by decide) _
  · decide
  apply decOptChild_bind_roundtrip ["Created"]
  · intro a _
    exact decodeParameters_enc a
  · intro a
    rfl
  · exact tagsAmong_encOpt (by intro a; rfl) (by decide) _
  · decide
  apply decOptChild_bind_roundtrip_last
  · intro a _
    exact decStrChild_enc "Created" a
  · intro a
    rfl
  apply decDone_bind
  rfl

theorem decodeObjectCollection_enc (l : List Object)
    (h : ∀ o ∈ l, ValidObject o) :
    decodeObjectCollection (encodeObjectCollection l) = .ok l := by
  show mapME decodeObject (l.map encodeObject) = .ok l
  refine mapME_map l (fun o ho => ?_)
  obtain ⟨h1, h2, h3⟩ := h o ho
  exact decodeObject_enc o h1 h2 h3

theorem decodeColorSpecificationCollection_enc (l : List ColorSpecification) :
    decodeColorSpecificationCollection
      (encodeColorSpecificationCollection l) = .ok l := by
  show mapME decodeColorSpecification (l.map encodeColorSpecification) = .ok l
  exact mapME_map l (fun c _ => decodeColorSpecification_enc c)

theorem decodeProfileCollection_enc (l : List Profile) :
    decodeProfileCollection (encodeProfileCollection l) = .ok l := by
  show mapME decodeProfile (l.map encodeProfile) = .ok l
  exact mapME_map l (fun p _ => decodeProfile_enc p)

theorem decodeResources_enc (r : Resources)
    (h : ∀ o ∈ r.object_collection.getD [], ValidObject o) :
    decodeResources (encodeResources r) = .ok r := by
  obtain ⟨oc, csc, pc⟩ := r
  simp only [encodeResources, decodeResources, List.append_assoc]
  apply decOptChild_bind_roundtrip
    ["ColorSpecificationCollection", "ProfileCollection"]
  · intro a ha
    refine decodeObjectCollection_enc a ?_
    rw [ha] at h
    exact h
  · intro a
    rfl
  · repeat' apply tagsAmong_append
    all_goals exact tagsAmong_encOpt (by intro a; rfl) (by decide) _
  · decide
  apply decOptChild_bind_roundtrip ["ProfileCollection"]
  · intro a _
    exact decodeColorSpecificationCollection_enc a
  · intro a
    rfl
  · exact tagsAmong_encOpt (by intro a; rfl) (by decide) _
  · decide
  apply decOptChild_bind_roundtrip_last
  · intro a _
    exact decodeProfileCollection_enc a
  · intro a
    rfl
  apply decDone_bind
  rfl

/-- C1: round-trip idempotence — for every document satisfying the schema
invariants, decoding the markup produced by encoding it yields a document
structurally equal to the original, field for field and in sequence order. -/
theorem claim1_roundtrip_idempotence (d : CxF) (h : ValidDoc d) :
    decodeDoc (encodeDoc d) = .ok d := by
  obtain ⟨fi, rs⟩ := d
  obtain ⟨hobj, hnd, href⟩ := h
  simp only [encodeDoc, decodeDoc, if_true]
  apply decOptChild_bind_roundtrip ["Resources"]
  · intro a _
    exact decodeFileInformation_enc a
  · intro a
    rfl
  · exact tagsAmong_encOpt (by intro a; rfl) (by decide) _
  · decide
  apply decOptChild_bind_roundtrip_last
  · intro a ha
    refine decodeResources_enc a ?_
    intro o ho
    refine hobj o ?_
    rw [ha]
    simpa [allObjects] using ho
  · intro a
    rfl
  apply decDone_bind
  exact checkDoc_of_valid hnd href


/-- Witness for C1 at the decoded scenario-B document. -/
theorem claim1_witness :
    ValidDoc decodedScenarioB ∧
    decodeDoc (encodeDoc decodedScenarioB) = .ok decodedScenarioB :=
  ⟨by decide, claim1_roundtrip_idempotence decodedScenarioB (by decide)⟩

end ColourCxf
